import Mathlib

/-!
# XMLWriter binding (`ext/xmlwriter/php_xmlwriter.c`)

A shallow embedding of the PHP XMLWriter binding.  The binding wraps libxml2's
text writer; the wrapped library is not part of the binding, so it enters the
model as a record of functions (`Lib`) over which every theorem quantifies.
Calls into the library that take or produce a writer are recorded in a trace.

Conventions.
* A C string (`char *`) is modelled by the `String` of its characters before
  the terminating NUL; reading the position just past the end gives NUL.
* A nullable pointer is an `Option`.
* The arguments of an operation are the values produced by a successful
  `zend_parse_method_parameters`; parameter parsing itself is not in the file.
-/

namespace XmlWriter

/-! ## The wrapped library -/

/-- Native writer handle (`xmlTextWriterPtr`); the NULL pointer is `none` of the option type. -/
abbrev xmlTextWriterPtr := Nat

/-- The callback pairs the binding registers with `xmlOutputBufferCreateIO`:
`xml_writer_stream_write_memory` / `xml_writer_stream_close_memory` on a fresh
buffer, or `xml_writer_stream_write` / `xml_writer_stream_close` on a stream's
resource. -/
inductive IOSink where
  | memory
  | stream
  deriving DecidableEq

/-- Calls into libxml2 which create, use or free a text writer or an output
buffer, with the arguments the binding passes. -/
inductive LibCall where
  | xmlTextWriterSetIndent (ptr : xmlTextWriterPtr) (indent : Bool)
  | xmlTextWriterSetIndentString (ptr : xmlTextWriterPtr) (str : String)
  | xmlTextWriterStartAttribute (ptr : xmlTextWriterPtr) (name : String)
  | xmlTextWriterEndAttribute (ptr : xmlTextWriterPtr)
  | xmlTextWriterStartAttributeNS (ptr : xmlTextWriterPtr) (pfx : Option String) (name : String)
      (uri : Option String)
  | xmlTextWriterWriteAttribute (ptr : xmlTextWriterPtr) (name content : String)
  | xmlTextWriterWriteAttributeNS (ptr : xmlTextWriterPtr) (pfx : Option String) (name : String)
      (uri : Option String) (content : String)
  | xmlTextWriterStartElement (ptr : xmlTextWriterPtr) (name : String)
  | xmlTextWriterStartElementNS (ptr : xmlTextWriterPtr) (pfx : Option String) (name : String)
      (uri : Option String)
  | xmlTextWriterEndElement (ptr : xmlTextWriterPtr)
  | xmlTextWriterFullEndElement (ptr : xmlTextWriterPtr)
  | xmlTextWriterWriteElement (ptr : xmlTextWriterPtr) (name content : String)
  | xmlTextWriterWriteElementNS (ptr : xmlTextWriterPtr) (pfx : Option String) (name : String)
      (uri : Option String) (content : String)
  | xmlTextWriterStartPI (ptr : xmlTextWriterPtr) (target : String)
  | xmlTextWriterEndPI (ptr : xmlTextWriterPtr)
  | xmlTextWriterWritePI (ptr : xmlTextWriterPtr) (target content : String)
  | xmlTextWriterStartCDATA (ptr : xmlTextWriterPtr)
  | xmlTextWriterEndCDATA (ptr : xmlTextWriterPtr)
  | xmlTextWriterWriteCDATA (ptr : xmlTextWriterPtr) (content : String)
  | xmlTextWriterWriteRaw (ptr : xmlTextWriterPtr) (content : String)
  | xmlTextWriterWriteString (ptr : xmlTextWriterPtr) (content : String)
  | xmlTextWriterStartComment (ptr : xmlTextWriterPtr)
  | xmlTextWriterEndComment (ptr : xmlTextWriterPtr)
  | xmlTextWriterWriteComment (ptr : xmlTextWriterPtr) (content : String)
  | xmlTextWriterStartDocument (ptr : xmlTextWriterPtr) (version enc alone : Option String)
  | xmlTextWriterEndDocument (ptr : xmlTextWriterPtr)
  | xmlTextWriterStartDTD (ptr : xmlTextWriterPtr) (name : String) (pubid sysid : Option String)
  | xmlTextWriterEndDTD (ptr : xmlTextWriterPtr)
  | xmlTextWriterWriteDTD (ptr : xmlTextWriterPtr) (name : String)
      (pubid sysid subset : Option String)
  | xmlTextWriterStartDTDElement (ptr : xmlTextWriterPtr) (name : String)
  | xmlTextWriterEndDTDElement (ptr : xmlTextWriterPtr)
  | xmlTextWriterWriteDTDElement (ptr : xmlTextWriterPtr) (name content : String)
  | xmlTextWriterStartDTDAttlist (ptr : xmlTextWriterPtr) (name : String)
  | xmlTextWriterEndDTDAttlist (ptr : xmlTextWriterPtr)
  | xmlTextWriterWriteDTDAttlist (ptr : xmlTextWriterPtr) (name content : String)
  | xmlTextWriterStartDTDEntity (ptr : xmlTextWriterPtr) (pe : Bool) (name : String)
  | xmlTextWriterEndDTDEntity (ptr : xmlTextWriterPtr)
  | xmlTextWriterWriteDTDEntity (ptr : xmlTextWriterPtr) (pe : Bool) (name : String)
      (pubid sysid ndataid : Option String) (content : String)
  | xmlTextWriterFlush (ptr : xmlTextWriterPtr)
  | xmlNewTextWriterFilename (uri : String) (compression : Int)
  | xmlFreeTextWriter (ptr : xmlTextWriterPtr)
  | xmlOutputBufferCreateIO (sink : IOSink)
  | xmlNewTextWriter (out : Nat)
  | xmlOutputBufferClose (out : Nat)
  deriving DecidableEq

/-- The wrapped library, as far as the binding can observe it.  The integer a
call returns, the byte chunks the library hands to the sink's write callback
while the call runs, and the handle a creating call returns may all depend on
the calls made before (the first argument). -/
structure Lib where
  /-- Result of `xmlValidateName(name, 0)`: 0 exactly for a valid XML name. -/
  xmlValidateName : String → Int
  /-- Integer result of a writer call. -/
  ret : List LibCall → LibCall → Int
  /-- Chunks passed, in order, to the output buffer's write callback during a call. -/
  emit : List LibCall → LibCall → List String
  /-- Handle returned by a creating call (`none` is the NULL pointer). -/
  alloc : List LibCall → LibCall → Option xmlTextWriterPtr
  /-- Whether `xmlCreateURI()` returns a record (false: NULL). -/
  xmlCreateURI : Bool
  /-- Result of `xmlURIEscapeStr(str, list)`. -/
  xmlURIEscapeStr : String → String → Option String
  /-- The `scheme` field of a fresh URI record after `xmlParseURIReference(uri, str)`. -/
  xmlParseURIReference : Option String → Option String

/-- The runtime and the operating system, as far as the binding uses them. -/
structure Sys where
  /-- The build flag `PHP_WIN32`. -/
  PHP_WIN32 : Bool
  /-- Result of `VCWD_REALPATH(path, resolved)`: the resolved path, or NULL. -/
  VCWD_REALPATH : String → Option String
  /-- Result of `expand_filepath(path, resolved)`: the expanded path, or NULL. -/
  expand_filepath : String → Option String
  /-- The directory part `zend_dirname(buf, len)` leaves in the buffer; its
  length is the value returned. -/
  zend_dirname : String → String
  /-- Result of `php_sys_stat(path, &buf)`: 0 on success. -/
  php_sys_stat : String → Int
  /-- Whether `object_init_with_constructor` returns SUCCESS. -/
  object_init_with_constructor : Bool

/-! ## Data model of the binding -/

/-- Modelled from the spec: the growable memory buffer (`smart_str` of
`zend_smart_str.h`, which is not among the sources): its accumulated bytes. -/
structure smart_str where
  s : String
  deriving DecidableEq

/-- Modelled from the spec: appending to the growable buffer (`smart_str_appendl`). -/
def smart_str_appendl (dest : smart_str) (buffer : String) : smart_str :=
  ⟨dest.s ++ buffer⟩

/-- Modelled from the spec: `extract()` returns the accumulated bytes and resets
the buffer (`smart_str_extract`). -/
def smart_str_extract (dest : smart_str) : String × smart_str :=
  (dest.s, ⟨""⟩)

/-- Modelled from the spec: number of accumulated bytes (`smart_str_get_len`). -/
def smart_str_get_len (dest : smart_str) : Nat :=
  dest.s.length

/-- The object behind an `XMLWriter` instance (`ze_xmlwriter_object`): the native
writer pointer and, for a memory-backed writer, the output buffer. -/
structure ze_xmlwriter_object where
  ptr : Option xmlTextWriterPtr
  output : Option smart_str
  deriving DecidableEq

/-- What lies outside the object: the library calls made so far (oldest first)
and the warnings raised. -/
structure State where
  trace : List LibCall
  warnings : List String
  deriving DecidableEq

/-- Values an operation returns to the script. -/
inductive zval where
  | bool (b : Bool)
  | long (n : Int)
  | str (s : String)
  | obj (o : ze_xmlwriter_object)
  deriving DecidableEq

/-- How an operation ends: a return value or a thrown error. -/
inductive Outcome where
  /-- `RETURN_*`. -/
  | ret (v : zval)
  /-- `zend_throw_error(NULL, msg)`. -/
  | error (msg : String)
  /-- `zend_argument_value_error(arg_no, msg)`. -/
  | argument_value_error (arg_no : Nat) (msg : String)
  /-- `zend_argument_must_not_be_empty_error(arg_no)`. -/
  | argument_must_not_be_empty_error (arg_no : Nat)
  /-- The exception left pending by a failed `object_init_with_constructor`. -/
  | constructor_failed
  /-- The exception raised by `php_stream_from_res` for a resource that is not an
  open stream. -/
  | invalid_resource
  deriving DecidableEq

/-- Result of an operation on an object: outcome, object afterwards, world afterwards. -/
abbrev Res := Outcome × ze_xmlwriter_object × State

/-! ## Sink callbacks and library calls -/

/-- The memory sink's write callback: appends the chunk, returns its length. -/
def xml_writer_stream_write_memory (context : smart_str) (buffer : String) : smart_str × Int :=
  (smart_str_appendl context buffer, (buffer.length : Int))

/-- The library runs the write callback on each chunk, in order. -/
def feed_memory (output : smart_str) (chunks : List String) : smart_str :=
  chunks.foldl (fun o b => (xml_writer_stream_write_memory o b).1) output

/-- One call of a library writer function on the object's writer: the call is
recorded, the chunks the library emits meanwhile reach the memory buffer through
the write callback (a file or stream sink is outside the object), and the
library's integer result is returned. -/
def Lib.call (lib : Lib) (c : LibCall) (self : ze_xmlwriter_object) (st : State) :
    Int × ze_xmlwriter_object × State :=
  (lib.ret st.trace c,
   { self with output := self.output.map (fun o => feed_memory o (lib.emit st.trace c)) },
   { st with trace := st.trace ++ [c] })

/-- The macro `XMLWRITER_FROM_OBJECT`: fetch the native pointer of the object;
when it is NULL throw and return, otherwise continue with the pointer. -/
def XMLWRITER_FROM_OBJECT (self : ze_xmlwriter_object) (st : State)
    (k : xmlTextWriterPtr → Res) : Res :=
  match self.ptr with
  | none => (Outcome.error "Invalid or uninitialized XMLWriter object", self, st)
  | some ptr => k ptr

/-- The message of `XMLW_NAME_CHK`, `must be a valid %s, "%s" given`, filled in. -/
def XMLW_NAME_CHK_msg (subject name : String) : String :=
  "must be a valid " ++ subject ++ ", \"" ++ name ++ "\" given"

/-- The macro `XMLW_NAME_CHK`: when `xmlValidateName` does not return 0, raise the
argument value error `must be a valid %s, "%s" given` and return; otherwise continue. -/
def XMLW_NAME_CHK (lib : Lib) (arg_no : Nat) (subject name : String)
    (self : ze_xmlwriter_object) (st : State) (k : Res) : Res :=
  if lib.xmlValidateName name ≠ 0 then
    (Outcome.argument_value_error arg_no (XMLW_NAME_CHK_msg subject name), self, st)
  else k

/-- The statement `RETURN_BOOL(retval != -1)` after a library call. -/
def RETURN_BOOL_ne_m1 (r : Int × ze_xmlwriter_object × State) : Res :=
  (Outcome.ret (zval.bool (r.1 != -1)), r.2)

/-! ## The two shared helpers -/

/-- Operations with one string argument: `php_xmlwriter_string_arg`.  The function
pointer `internal_function` is the library function to call; `subject_name` is
NULL (`none`) when the argument is not a name. -/
def php_xmlwriter_string_arg (lib : Lib) (internal_function : xmlTextWriterPtr → String → LibCall)
    (subject_name : Option String) (self : ze_xmlwriter_object) (name : String) (st : State) :
    Res :=
  XMLWRITER_FROM_OBJECT self st fun ptr =>
    match subject_name with
    | some subject =>
      XMLW_NAME_CHK lib 2 subject name self st
        (RETURN_BOOL_ne_m1 (lib.call (internal_function ptr name) self st))
    | none => RETURN_BOOL_ne_m1 (lib.call (internal_function ptr name) self st)

/-- Operations without argument: `php_xmlwriter_end`. -/
def php_xmlwriter_end (lib : Lib) (internal_function : xmlTextWriterPtr → LibCall)
    (self : ze_xmlwriter_object) (st : State) : Res :=
  XMLWRITER_FROM_OBJECT self st fun ptr =>
    RETURN_BOOL_ne_m1 (lib.call (internal_function ptr) self st)

/-! ## The writer operations -/

open LibCall

/-- Toggle indentation: `xmlwriter_set_indent`; true when the library returns 0. -/
def xmlwriter_set_indent (lib : Lib) (self : ze_xmlwriter_object) (indent : Bool) (st : State) :
    Res :=
  XMLWRITER_FROM_OBJECT self st fun ptr =>
    let r := lib.call (xmlTextWriterSetIndent ptr indent) self st
    (Outcome.ret (zval.bool (r.1 == 0)), r.2)

def xmlwriter_set_indent_string (lib : Lib) (self : ze_xmlwriter_object) (indentation : String)
    (st : State) : Res :=
  php_xmlwriter_string_arg lib xmlTextWriterSetIndentString none self indentation st

def xmlwriter_start_attribute (lib : Lib) (self : ze_xmlwriter_object) (name : String)
    (st : State) : Res :=
  php_xmlwriter_string_arg lib xmlTextWriterStartAttribute (some "attribute name") self name st

def xmlwriter_end_attribute (lib : Lib) (self : ze_xmlwriter_object) (st : State) : Res :=
  php_xmlwriter_end lib xmlTextWriterEndAttribute self st

def xmlwriter_start_attribute_ns (lib : Lib) (self : ze_xmlwriter_object) (pfx : Option String)
    (name : String) (uri : Option String) (st : State) : Res :=
  XMLWRITER_FROM_OBJECT self st fun ptr =>
    XMLW_NAME_CHK lib 3 "attribute name" name self st
      (RETURN_BOOL_ne_m1 (lib.call (xmlTextWriterStartAttributeNS ptr pfx name uri) self st))

def xmlwriter_write_attribute (lib : Lib) (self : ze_xmlwriter_object) (name content : String)
    (st : State) : Res :=
  XMLWRITER_FROM_OBJECT self st fun ptr =>
    XMLW_NAME_CHK lib 2 "attribute name" name self st
      (RETURN_BOOL_ne_m1 (lib.call (xmlTextWriterWriteAttribute ptr name content) self st))

def xmlwriter_write_attribute_ns (lib : Lib) (self : ze_xmlwriter_object) (pfx : Option String)
    (name : String) (uri : Option String) (content : String) (st : State) : Res :=
  XMLWRITER_FROM_OBJECT self st fun ptr =>
    XMLW_NAME_CHK lib 3 "attribute name" name self st
      (RETURN_BOOL_ne_m1
        (lib.call (xmlTextWriterWriteAttributeNS ptr pfx name uri content) self st))

def xmlwriter_start_element (lib : Lib) (self : ze_xmlwriter_object) (name : String)
    (st : State) : Res :=
  php_xmlwriter_string_arg lib xmlTextWriterStartElement (some "element name") self name st

def xmlwriter_start_element_ns (lib : Lib) (self : ze_xmlwriter_object) (pfx : Option String)
    (name : String) (uri : Option String) (st : State) : Res :=
  XMLWRITER_FROM_OBJECT self st fun ptr =>
    XMLW_NAME_CHK lib 3 "element name" name self st
      (RETURN_BOOL_ne_m1 (lib.call (xmlTextWriterStartElementNS ptr pfx name uri) self st))

def xmlwriter_end_element (lib : Lib) (self : ze_xmlwriter_object) (st : State) : Res :=
  php_xmlwriter_end lib xmlTextWriterEndElement self st

def xmlwriter_full_end_element (lib : Lib) (self : ze_xmlwriter_object) (st : State) : Res :=
  php_xmlwriter_end lib xmlTextWriterFullEndElement self st

/-- Write a full element: `xmlwriter_write_element`; NULL content starts and ends
the element, other content goes to the library's write-element function. -/
def xmlwriter_write_element (lib : Lib) (self : ze_xmlwriter_object) (name : String)
    (content : Option String) (st : State) : Res :=
  XMLWRITER_FROM_OBJECT self st fun ptr =>
    XMLW_NAME_CHK lib 2 "element name" name self st
      (match content with
       | none =>
         let r := lib.call (xmlTextWriterStartElement ptr name) self st
         if r.1 = -1 then (Outcome.ret (zval.bool false), r.2)
         else RETURN_BOOL_ne_m1 (lib.call (xmlTextWriterEndElement ptr) r.2.1 r.2.2)
       | some c => RETURN_BOOL_ne_m1 (lib.call (xmlTextWriterWriteElement ptr name c) self st))

def xmlwriter_write_element_ns (lib : Lib) (self : ze_xmlwriter_object) (pfx : Option String)
    (name : String) (uri : Option String) (content : Option String) (st : State) : Res :=
  XMLWRITER_FROM_OBJECT self st fun ptr =>
    XMLW_NAME_CHK lib 3 "element name" name self st
      (match content with
       | none =>
         let r := lib.call (xmlTextWriterStartElementNS ptr pfx name uri) self st
         if r.1 = -1 then (Outcome.ret (zval.bool false), r.2)
         else RETURN_BOOL_ne_m1 (lib.call (xmlTextWriterEndElement ptr) r.2.1 r.2.2)
       | some c =>
         RETURN_BOOL_ne_m1 (lib.call (xmlTextWriterWriteElementNS ptr pfx name uri c) self st))

def xmlwriter_start_pi (lib : Lib) (self : ze_xmlwriter_object) (target : String)
    (st : State) : Res :=
  php_xmlwriter_string_arg lib xmlTextWriterStartPI (some "PI target") self target st

def xmlwriter_end_pi (lib : Lib) (self : ze_xmlwriter_object) (st : State) : Res :=
  php_xmlwriter_end lib xmlTextWriterEndPI self st

def xmlwriter_write_pi (lib : Lib) (self : ze_xmlwriter_object) (name content : String)
    (st : State) : Res :=
  XMLWRITER_FROM_OBJECT self st fun ptr =>
    XMLW_NAME_CHK lib 2 "PI target" name self st
      (RETURN_BOOL_ne_m1 (lib.call (xmlTextWriterWritePI ptr name content) self st))

def xmlwriter_start_cdata (lib : Lib) (self : ze_xmlwriter_object) (st : State) : Res :=
  XMLWRITER_FROM_OBJECT self st fun ptr =>
    RETURN_BOOL_ne_m1 (lib.call (xmlTextWriterStartCDATA ptr) self st)

def xmlwriter_end_cdata (lib : Lib) (self : ze_xmlwriter_object) (st : State) : Res :=
  php_xmlwriter_end lib xmlTextWriterEndCDATA self st

def xmlwriter_write_cdata (lib : Lib) (self : ze_xmlwriter_object) (content : String)
    (st : State) : Res :=
  php_xmlwriter_string_arg lib xmlTextWriterWriteCDATA none self content st

def xmlwriter_write_raw (lib : Lib) (self : ze_xmlwriter_object) (content : String)
    (st : State) : Res :=
  php_xmlwriter_string_arg lib xmlTextWriterWriteRaw none self content st

def xmlwriter_text (lib : Lib) (self : ze_xmlwriter_object) (content : String) (st : State) :
    Res :=
  php_xmlwriter_string_arg lib xmlTextWriterWriteString none self content st

def xmlwriter_start_comment (lib : Lib) (self : ze_xmlwriter_object) (st : State) : Res :=
  XMLWRITER_FROM_OBJECT self st fun ptr =>
    RETURN_BOOL_ne_m1 (lib.call (xmlTextWriterStartComment ptr) self st)

def xmlwriter_end_comment (lib : Lib) (self : ze_xmlwriter_object) (st : State) : Res :=
  php_xmlwriter_end lib xmlTextWriterEndComment self st

def xmlwriter_write_comment (lib : Lib) (self : ze_xmlwriter_object) (content : String)
    (st : State) : Res :=
  php_xmlwriter_string_arg lib xmlTextWriterWriteComment none self content st

def xmlwriter_start_document (lib : Lib) (self : ze_xmlwriter_object)
    (version enc alone : Option String) (st : State) : Res :=
  XMLWRITER_FROM_OBJECT self st fun ptr =>
    RETURN_BOOL_ne_m1 (lib.call (xmlTextWriterStartDocument ptr version enc alone) self st)

def xmlwriter_end_document (lib : Lib) (self : ze_xmlwriter_object) (st : State) : Res :=
  php_xmlwriter_end lib xmlTextWriterEndDocument self st

/-- Start a DTD: `xmlwriter_start_dtd`; the name goes to the library as given. -/
def xmlwriter_start_dtd (lib : Lib) (self : ze_xmlwriter_object) (name : String)
    (pubid sysid : Option String) (st : State) : Res :=
  XMLWRITER_FROM_OBJECT self st fun ptr =>
    RETURN_BOOL_ne_m1 (lib.call (xmlTextWriterStartDTD ptr name pubid sysid) self st)

def xmlwriter_end_dtd (lib : Lib) (self : ze_xmlwriter_object) (st : State) : Res :=
  php_xmlwriter_end lib xmlTextWriterEndDTD self st

/-- Write a full DTD: `xmlwriter_write_dtd`; the name goes to the library as given. -/
def xmlwriter_write_dtd (lib : Lib) (self : ze_xmlwriter_object) (name : String)
    (pubid sysid subset : Option String) (st : State) : Res :=
  XMLWRITER_FROM_OBJECT self st fun ptr =>
    RETURN_BOOL_ne_m1 (lib.call (xmlTextWriterWriteDTD ptr name pubid sysid subset) self st)

def xmlwriter_start_dtd_element (lib : Lib) (self : ze_xmlwriter_object) (name : String)
    (st : State) : Res :=
  php_xmlwriter_string_arg lib xmlTextWriterStartDTDElement (some "element name") self name st

def xmlwriter_end_dtd_element (lib : Lib) (self : ze_xmlwriter_object) (st : State) : Res :=
  php_xmlwriter_end lib xmlTextWriterEndDTDElement self st

def xmlwriter_write_dtd_element (lib : Lib) (self : ze_xmlwriter_object) (name content : String)
    (st : State) : Res :=
  XMLWRITER_FROM_OBJECT self st fun ptr =>
    XMLW_NAME_CHK lib 2 "element name" name self st
      (RETURN_BOOL_ne_m1 (lib.call (xmlTextWriterWriteDTDElement ptr name content) self st))

def xmlwriter_start_dtd_attlist (lib : Lib) (self : ze_xmlwriter_object) (name : String)
    (st : State) : Res :=
  php_xmlwriter_string_arg lib xmlTextWriterStartDTDAttlist (some "element name") self name st

def xmlwriter_end_dtd_attlist (lib : Lib) (self : ze_xmlwriter_object) (st : State) : Res :=
  php_xmlwriter_end lib xmlTextWriterEndDTDAttlist self st

def xmlwriter_write_dtd_attlist (lib : Lib) (self : ze_xmlwriter_object) (name content : String)
    (st : State) : Res :=
  XMLWRITER_FROM_OBJECT self st fun ptr =>
    XMLW_NAME_CHK lib 2 "element name" name self st
      (RETURN_BOOL_ne_m1 (lib.call (xmlTextWriterWriteDTDAttlist ptr name content) self st))

def xmlwriter_start_dtd_entity (lib : Lib) (self : ze_xmlwriter_object) (name : String)
    (isparm : Bool) (st : State) : Res :=
  XMLWRITER_FROM_OBJECT self st fun ptr =>
    XMLW_NAME_CHK lib 2 "attribute name" name self st
      (RETURN_BOOL_ne_m1 (lib.call (xmlTextWriterStartDTDEntity ptr isparm name) self st))

def xmlwriter_end_dtd_entity (lib : Lib) (self : ze_xmlwriter_object) (st : State) : Res :=
  php_xmlwriter_end lib xmlTextWriterEndDTDEntity self st

def xmlwriter_write_dtd_entity (lib : Lib) (self : ze_xmlwriter_object) (name content : String)
    (pe : Bool) (pubid sysid ndataid : Option String) (st : State) : Res :=
  XMLWRITER_FROM_OBJECT self st fun ptr =>
    XMLW_NAME_CHK lib 2 "element name" name self st
      (RETURN_BOOL_ne_m1
        (lib.call (xmlTextWriterWriteDTDEntity ptr pe name pubid sysid ndataid content) self st))

/-- Flush and output: `php_xmlwriter_flush`.  The optional flag `empty` defaults
to true.  `output` is read before the library flushes; the library's flush may run
the write callback, so the buffer behind that pointer is inspected afterwards. -/
def php_xmlwriter_flush (lib : Lib) (force_string : Int) (self : ze_xmlwriter_object)
    (empty : Option Bool) (st : State) : Res :=
  XMLWRITER_FROM_OBJECT self st fun ptr =>
    if force_string = 1 ∧ self.output = none then
      (Outcome.ret (zval.str ""), self, st)
    else
      let r := lib.call (xmlTextWriterFlush ptr) self st
      match r.2.1.output with
      | some output =>
        if empty.getD true then
          let e := smart_str_extract output
          (Outcome.ret (zval.str e.1), { r.2.1 with output := some e.2 }, r.2.2)
        else if smart_str_get_len output > 0 then
          (Outcome.ret (zval.str output.s), r.2)
        else
          (Outcome.ret (zval.str ""), r.2)
      | none => (Outcome.ret (zval.long r.1), r.2)

def xmlwriter_output_memory (lib : Lib) (self : ze_xmlwriter_object) (empty : Option Bool)
    (st : State) : Res :=
  php_xmlwriter_flush lib 1 self empty st

def xmlwriter_flush (lib : Lib) (self : ze_xmlwriter_object) (empty : Option Bool)
    (st : State) : Res :=
  php_xmlwriter_flush lib 0 self empty st


/-! ## Resolving the destination of a file writer -/

/-- Calls to the runtime and the operating system made while a path is resolved. -/
inductive SysCall where
  | VCWD_REALPATH (path : String)
  | expand_filepath (path : String)
  | zend_dirname (path : String)
  | php_sys_stat (path : String)
  deriving DecidableEq

/-- The character `s[i]` of a C string: past the last character stands NUL. -/
def char_at (s : List Char) (i : Nat) : Char :=
  s.getD i '\x00'

/-- The C library's `strncasecmp(s1, s2, n)` on ASCII: compares at most `n` characters
without regard to case and stops at a NUL. -/
def strncasecmp (s1 s2 : List Char) : Nat → Int
  | 0 => 0
  | n + 1 =>
    let c1 := (char_at s1 0).toLower
    let c2 := (char_at s2 0).toLower
    if c1 ≠ c2 then (c1.toNat : Int) - (c2.toNat : Int)
    else if c1 = '\x00' then 0
    else strncasecmp s1.tail s2.tail n

/-- Pointer arithmetic `source += n` on a C string. -/
def advance (source : String) (n : Nat) : String :=
  ⟨source.data.drop n⟩

/-- The block of `_xmlwriter_get_valid_file_path` guarded by
`uri->scheme == NULL || isFileUri`: resolve the path, then check its directory. -/
def resolve_local_path (sys : Sys) (source : String) : Option String × List SysCall :=
  let real := sys.VCWD_REALPATH source
  let expanded := if real.isNone then sys.expand_filepath source else none
  let calls₁ := if real.isNone then [SysCall.VCWD_REALPATH source, SysCall.expand_filepath source]
                else [SysCall.VCWD_REALPATH source]
  match real.orElse (fun _ => expanded) with
  | none => (none, calls₁)
  | some resolved_path =>
    let file_dirname := sys.zend_dirname source
    let dir_len := file_dirname.length
    if dir_len > 0 then
      if sys.php_sys_stat file_dirname ≠ 0 then
        (none, calls₁ ++ [SysCall.zend_dirname source, SysCall.php_sys_stat file_dirname])
      else
        (some resolved_path,
          calls₁ ++ [SysCall.zend_dirname source, SysCall.php_sys_stat file_dirname])
    else
      (some resolved_path, calls₁ ++ [SysCall.zend_dirname source])

/-- The resolver `_xmlwriter_get_valid_file_path(source, resolved_path, len)`: the
destination to open, or NULL, together with the runtime calls it made. -/
def _xmlwriter_get_valid_file_path (lib : Lib) (sys : Sys) (source : String) :
    Option String × List SysCall :=
  if ¬ lib.xmlCreateURI then (none, [])
  else
    let scheme := lib.xmlParseURIReference (lib.xmlURIEscapeStr source ":")
    if scheme.isSome then
      if strncasecmp source.data "file:///".data 8 = 0 then
        if char_at source.data 8 = '\x00' then (none, [])
        else resolve_local_path sys (advance source (if sys.PHP_WIN32 then 8 else 7))
      else if strncasecmp source.data "file://localhost/".data 17 = 0 then
        if char_at source.data 17 = '\x00' then (none, [])
        else resolve_local_path sys (advance source (if sys.PHP_WIN32 then 17 else 16))
      else
        (some source, [])
    else
      resolve_local_path sys source

/-! ## Creating and destroying writers -/

/-- Free the native writer of an object: `xmlwriter_destroy_libxml_objects`. -/
def xmlwriter_destroy_libxml_objects (intern : ze_xmlwriter_object) (st : State) :
    ze_xmlwriter_object × State :=
  match intern.ptr with
  | some ptr =>
    ({ ptr := none, output := none }, { st with trace := st.trace ++ [xmlFreeTextWriter ptr] })
  | none => (intern, st)

/-- Result of an opening operation: outcome, the object it was invoked on (if
any) afterwards, world afterwards. -/
abbrev OpenRes := Outcome × Option ze_xmlwriter_object × State

/-- Open a writer on a path or URI: `xmlwriter_open_uri`, as a method
(`self` is the object) or as a function (`self` is NULL). -/
def xmlwriter_open_uri (lib : Lib) (sys : Sys) (self : Option ze_xmlwriter_object)
    (source : String) (st : State) : OpenRes :=
  if source.length = 0 then
    (Outcome.argument_must_not_be_empty_error 1, self, st)
  else
    match (_xmlwriter_get_valid_file_path lib sys source).1 with
    | none =>
      (Outcome.ret (zval.bool false), self,
        { st with warnings := st.warnings ++ ["Unable to resolve file path"] })
    | some valid_file =>
      let st₁ : State := { st with trace := st.trace ++ [xmlNewTextWriterFilename valid_file 0] }
      match lib.alloc st.trace (xmlNewTextWriterFilename valid_file 0) with
      | none => (Outcome.ret (zval.bool false), self, st₁)
      | some ptr =>
        match self with
        | some ze_obj =>
          let d := xmlwriter_destroy_libxml_objects ze_obj st₁
          (Outcome.ret (zval.bool true), some { ptr := some ptr, output := none }, d.2)
        | none =>
          (Outcome.ret (zval.obj { ptr := some ptr, output := none }), none, st₁)

/-- Build the object a static constructor returns: `xml_writer_create_static`. -/
def xml_writer_create_static (sys : Sys) (writer : xmlTextWriterPtr) (output : Option smart_str)
    (st : State) : Outcome × State :=
  if sys.object_init_with_constructor then
    (Outcome.ret (zval.obj { ptr := some writer, output := output }), st)
  else
    (Outcome.constructor_failed, { st with trace := st.trace ++ [xmlFreeTextWriter writer] })

/-- The static constructor `XMLWriter::toUri`. -/
def XMLWriter_toUri (lib : Lib) (sys : Sys) (source : String) (st : State) : Outcome × State :=
  if source.length = 0 then
    (Outcome.argument_must_not_be_empty_error 1, st)
  else
    match (_xmlwriter_get_valid_file_path lib sys source).1 with
    | none => (Outcome.argument_value_error 1 "must resolve to a valid file path", st)
    | some valid_file =>
      let st₁ : State := { st with trace := st.trace ++ [xmlNewTextWriterFilename valid_file 0] }
      match lib.alloc st.trace (xmlNewTextWriterFilename valid_file 0) with
      | none => (Outcome.error "Could not construct libxml writer", st₁)
      | some writer => xml_writer_create_static sys writer none st₁

/-! ## The operations that fetch the writer with `XMLWRITER_FROM_OBJECT` -/

/-- A writer operation together with its parsed arguments. -/
inductive Op where
  | setIndent (enable : Bool)
  | setIndentString (indentation : String)
  | startAttribute (name : String)
  | endAttribute
  | startAttributeNs (pfx : Option String) (name : String) (uri : Option String)
  | writeAttribute (name value : String)
  | writeAttributeNs (pfx : Option String) (name : String) (uri : Option String) (value : String)
  | startElement (name : String)
  | startElementNs (pfx : Option String) (name : String) (uri : Option String)
  | endElement
  | fullEndElement
  | writeElement (name : String) (content : Option String)
  | writeElementNs (pfx : Option String) (name : String) (uri : Option String)
      (content : Option String)
  | startPi (target : String)
  | endPi
  | writePi (target content : String)
  | startCdata
  | endCdata
  | writeCdata (content : String)
  | writeRaw (content : String)
  | text (content : String)
  | startComment
  | endComment
  | writeComment (content : String)
  | startDocument (version enc alone : Option String)
  | endDocument
  | startDtd (name : String) (pubid sysid : Option String)
  | endDtd
  | writeDtd (name : String) (pubid sysid subset : Option String)
  | startDtdElement (name : String)
  | endDtdElement
  | writeDtdElement (name content : String)
  | startDtdAttlist (name : String)
  | endDtdAttlist
  | writeDtdAttlist (name content : String)
  | startDtdEntity (name : String) (isparm : Bool)
  | endDtdEntity
  | writeDtdEntity (name content : String) (pe : Bool) (pubid sysid ndataid : Option String)
  | flush (empty : Option Bool)
  | outputMemory (empty : Option Bool)
  deriving DecidableEq

/-- Dispatch of a method to the function that implements it. -/
def Op.run (lib : Lib) (op : Op) (self : ze_xmlwriter_object) (st : State) : Res :=
  match op with
  | .setIndent b => xmlwriter_set_indent lib self b st
  | .setIndentString i => xmlwriter_set_indent_string lib self i st
  | .startAttribute n => xmlwriter_start_attribute lib self n st
  | .endAttribute => xmlwriter_end_attribute lib self st
  | .startAttributeNs p n u => xmlwriter_start_attribute_ns lib self p n u st
  | .writeAttribute n v => xmlwriter_write_attribute lib self n v st
  | .writeAttributeNs p n u v => xmlwriter_write_attribute_ns lib self p n u v st
  | .startElement n => xmlwriter_start_element lib self n st
  | .startElementNs p n u => xmlwriter_start_element_ns lib self p n u st
  | .endElement => xmlwriter_end_element lib self st
  | .fullEndElement => xmlwriter_full_end_element lib self st
  | .writeElement n c => xmlwriter_write_element lib self n c st
  | .writeElementNs p n u c => xmlwriter_write_element_ns lib self p n u c st
  | .startPi t => xmlwriter_start_pi lib self t st
  | .endPi => xmlwriter_end_pi lib self st
  | .writePi t c => xmlwriter_write_pi lib self t c st
  | .startCdata => xmlwriter_start_cdata lib self st
  | .endCdata => xmlwriter_end_cdata lib self st
  | .writeCdata c => xmlwriter_write_cdata lib self c st
  | .writeRaw c => xmlwriter_write_raw lib self c st
  | .text c => xmlwriter_text lib self c st
  | .startComment => xmlwriter_start_comment lib self st
  | .endComment => xmlwriter_end_comment lib self st
  | .writeComment c => xmlwriter_write_comment lib self c st
  | .startDocument v e a => xmlwriter_start_document lib self v e a st
  | .endDocument => xmlwriter_end_document lib self st
  | .startDtd n p y => xmlwriter_start_dtd lib self n p y st
  | .endDtd => xmlwriter_end_dtd lib self st
  | .writeDtd n p y c => xmlwriter_write_dtd lib self n p y c st
  | .startDtdElement n => xmlwriter_start_dtd_element lib self n st
  | .endDtdElement => xmlwriter_end_dtd_element lib self st
  | .writeDtdElement n c => xmlwriter_write_dtd_element lib self n c st
  | .startDtdAttlist n => xmlwriter_start_dtd_attlist lib self n st
  | .endDtdAttlist => xmlwriter_end_dtd_attlist lib self st
  | .writeDtdAttlist n c => xmlwriter_write_dtd_attlist lib self n c st
  | .startDtdEntity n b => xmlwriter_start_dtd_entity lib self n b st
  | .endDtdEntity => xmlwriter_end_dtd_entity lib self st
  | .writeDtdEntity n c pe p y d => xmlwriter_write_dtd_entity lib self n c pe p y d st
  | .flush e => xmlwriter_flush lib self e st
  | .outputMemory e => xmlwriter_output_memory lib self e st

/-! ## Memory writers, the destructor and the stream sink -/

/-- A new object as `xmlwriter_object_new` leaves it: `zend_object_alloc` zeroes
the native pointer and the output pointer. -/
def xmlwriter_object_new : ze_xmlwriter_object :=
  { ptr := none, output := none }

/-- The destructor handler `xmlwriter_object_dtor`: frees the native writer. -/
def xmlwriter_object_dtor (intern : ze_xmlwriter_object) (st : State) :
    ze_xmlwriter_object × State :=
  xmlwriter_destroy_libxml_objects intern st

/-- Create a writer on a fresh memory buffer: `xml_writer_create_in_memory`.  The
result is the writer with the zeroed buffer stored through `output_ptr`, or NULL. -/
def xml_writer_create_in_memory (lib : Lib) (st : State) :
    Option (xmlTextWriterPtr × smart_str) × State :=
  let st₁ : State := { st with trace := st.trace ++ [ xmlOutputBufferCreateIO IOSink.memory] }
  match lib.alloc st.trace ( xmlOutputBufferCreateIO IOSink.memory) with
  | none => (none, st₁)
  | some output_buffer =>
    let st₂ : State := { st₁ with trace := st₁.trace ++ [xmlNewTextWriter output_buffer] }
    match lib.alloc st₁.trace (xmlNewTextWriter output_buffer) with
    | none => (none, { st₂ with trace := st₂.trace ++ [xmlOutputBufferClose output_buffer] })
    | some writer => (some (writer, ⟨""⟩), st₂)

/-- Open a writer on memory: `xmlwriter_open_memory`, as a method (`self` is the
object) or as a function (`self` is NULL). -/
def xmlwriter_open_memory (lib : Lib) (self : Option ze_xmlwriter_object) (st : State) :
    OpenRes :=
  match xml_writer_create_in_memory lib st with
  | (none, st₁) => (Outcome.ret (zval.bool false), self, st₁)
  | (some (ptr, output), st₁) =>
    match self with
    | some ze_obj =>
      let d := xmlwriter_destroy_libxml_objects ze_obj st₁
      (Outcome.ret (zval.bool true), some { ptr := some ptr, output := some output }, d.2)
    | none =>
      (Outcome.ret (zval.obj { ptr := some ptr, output := some output }), none, st₁)

/-- The static constructor `XMLWriter::toMemory`. -/
def XMLWriter_toMemory (lib : Lib) (sys : Sys) (st : State) : Outcome × State :=
  match xml_writer_create_in_memory lib st with
  | (none, st₁) => (Outcome.error "Could not construct libxml writer", st₁)
  | (some (writer, output), st₁) => xml_writer_create_static sys writer (some output) st₁

/-- The resource behind a stream handed to `toStream`: its reference count and
whether it is (still) an open stream. -/
structure zend_resource where
  refcount : Nat
  is_open_stream : Bool
  deriving DecidableEq

/-- Modelled from the spec: `Z_ADDREF_P` on the stream's zval (a macro of the
runtime, not among the sources) takes one more reference on the shared handle. -/
def Z_ADDREF (r : zend_resource) : zend_resource :=
  { r with refcount := r.refcount + 1 }

/-- Modelled from the spec: `zend_list_delete` (runtime, not among the sources)
releases one reference; the reference count governs when the handle is actually
released, which is when no reference remains. -/
def zend_list_delete (r : zend_resource) : zend_resource :=
  { refcount := r.refcount - 1,
    is_open_stream := if r.refcount ≤ 1 then false else r.is_open_stream }

/-- The stream sink's close callback `xml_writer_stream_close`: deletes the
sink's reference to the resource and returns 0. -/
def xml_writer_stream_close (context : zend_resource) : zend_resource × Int :=
  (zend_list_delete context, 0)

/-- The world of a `toStream` call: calls and warnings, and the stream's resource. -/
structure StreamWorld where
  st : State
  resource : zend_resource
  deriving DecidableEq

/-- `xmlOutputBufferClose` on the output buffer of the stream sink: the call is
recorded and the library runs the buffer's close callback ("when the buffer is
closed (even in error paths) the reference is destroyed"). -/
def xmlOutputBufferClose_stream (out : Nat) (w : StreamWorld) : StreamWorld :=
  { st := { w.st with trace := w.st.trace ++ [xmlOutputBufferClose out] },
    resource := (xml_writer_stream_close w.resource).1 }

/-- `xmlFreeTextWriter` on a writer that owns the stream sink's output buffer: the
call is recorded and the library closes the buffer it owns, which runs the close
callback ("output_buffer is owned by writer, and so writer will clean that up"). -/
def xmlFreeTextWriter_stream (ptr : xmlTextWriterPtr) (w : StreamWorld) : StreamWorld :=
  { st := { w.st with trace := w.st.trace ++ [xmlFreeTextWriter ptr] },
    resource := (xml_writer_stream_close w.resource).1 }

/-- The function `xml_writer_create_static` for a writer on the stream sink. -/
def xml_writer_create_static_stream (sys : Sys) (writer : xmlTextWriterPtr)
    (output : Option smart_str) (w : StreamWorld) : Outcome × StreamWorld :=
  if sys.object_init_with_constructor then
    (Outcome.ret (zval.obj { ptr := some writer, output := output }), w)
  else
    (Outcome.constructor_failed, xmlFreeTextWriter_stream writer w)

/-- The static constructor `XMLWriter::toStream`. -/
def XMLWriter_toStream (lib : Lib) (sys : Sys) (w : StreamWorld) : Outcome × StreamWorld :=
  if ¬ w.resource.is_open_stream then (Outcome.invalid_resource, w)
  else
    let st₁ : State :=
      { w.st with trace := w.st.trace ++ [ xmlOutputBufferCreateIO IOSink.stream] }
    match lib.alloc w.st.trace ( xmlOutputBufferCreateIO IOSink.stream) with
    | none =>
      (Outcome.error "Could not construct libxml output buffer", { w with st := st₁ })
    | some output_buffer =>
      let st₂ : State := { st₁ with trace := st₁.trace ++ [xmlNewTextWriter output_buffer] }
      let w₂ : StreamWorld := { st := st₂, resource := Z_ADDREF w.resource }
      match lib.alloc st₁.trace (xmlNewTextWriter output_buffer) with
      | none =>
        (Outcome.error "Could not construct libxml writer",
          xmlOutputBufferClose_stream output_buffer w₂)
      | some writer => xml_writer_create_static_stream sys writer none w₂

/-- The function `xmlwriter_destroy_libxml_objects` for an object whose writer is on
the stream sink. -/
def xmlwriter_destroy_libxml_objects_stream (intern : ze_xmlwriter_object) (w : StreamWorld) :
    ze_xmlwriter_object × StreamWorld :=
  match intern.ptr with
  | some ptr => ({ ptr := none, output := none }, xmlFreeTextWriter_stream ptr w)
  | none => (intern, w)

/-- The handler `xmlwriter_object_dtor` for an object whose writer is on the stream sink. -/
def xmlwriter_object_dtor_stream (intern : ze_xmlwriter_object) (w : StreamWorld) :
    ze_xmlwriter_object × StreamWorld :=
  xmlwriter_destroy_libxml_objects_stream intern w

/-! ## Reachable object states -/

/-- The destination of the writer an object holds. -/
inductive SinkKind where
  | memory
  | file
  | stream
  deriving DecidableEq

/-- The object states the binding can produce, tagged with the destination of
the writer held (`none`: no writer): a new object and the results of the
creating functions and static constructors, closed under the opening methods,
the writer operations (flush and outputMemory among them) and destruction, each
in an arbitrary world. -/
inductive Reachable (lib : Lib) (sys : Sys) : Option SinkKind → ze_xmlwriter_object → Prop where
  | object_new : Reachable lib sys none xmlwriter_object_new
  | open_uri_function (source : String) (st : State) (o : ze_xmlwriter_object) :
      (xmlwriter_open_uri lib sys none source st).1 = Outcome.ret (zval.obj o) →
      Reachable lib sys (some SinkKind.file) o
  | open_memory_function (st : State) (o : ze_xmlwriter_object) :
      (xmlwriter_open_memory lib none st).1 = Outcome.ret (zval.obj o) →
      Reachable lib sys (some SinkKind.memory) o
  | toUri (source : String) (st : State) (o : ze_xmlwriter_object) :
      (XMLWriter_toUri lib sys source st).1 = Outcome.ret (zval.obj o) →
      Reachable lib sys (some SinkKind.file) o
  | toMemory (st : State) (o : ze_xmlwriter_object) :
      (XMLWriter_toMemory lib sys st).1 = Outcome.ret (zval.obj o) →
      Reachable lib sys (some SinkKind.memory) o
  | toStream (w : StreamWorld) (o : ze_xmlwriter_object) :
      (XMLWriter_toStream lib sys w).1 = Outcome.ret (zval.obj o) →
      Reachable lib sys (some SinkKind.stream) o
  | open_uri_method_ok (k : Option SinkKind) (o o' : ze_xmlwriter_object) (source : String)
      (st : State) :
      Reachable lib sys k o →
      (xmlwriter_open_uri lib sys (some o) source st).1 = Outcome.ret (zval.bool true) →
      (xmlwriter_open_uri lib sys (some o) source st).2.1 = some o' →
      Reachable lib sys (some SinkKind.file) o'
  | open_uri_method_failed (k : Option SinkKind) (o o' : ze_xmlwriter_object) (source : String)
      (st : State) :
      Reachable lib sys k o →
      (xmlwriter_open_uri lib sys (some o) source st).1 ≠ Outcome.ret (zval.bool true) →
      (xmlwriter_open_uri lib sys (some o) source st).2.1 = some o' →
      Reachable lib sys k o'
  | open_memory_method_ok (k : Option SinkKind) (o o' : ze_xmlwriter_object) (st : State) :
      Reachable lib sys k o →
      (xmlwriter_open_memory lib (some o) st).1 = Outcome.ret (zval.bool true) →
      (xmlwriter_open_memory lib (some o) st).2.1 = some o' →
      Reachable lib sys (some SinkKind.memory) o'
  | open_memory_method_failed (k : Option SinkKind) (o o' : ze_xmlwriter_object) (st : State) :
      Reachable lib sys k o →
      (xmlwriter_open_memory lib (some o) st).1 ≠ Outcome.ret (zval.bool true) →
      (xmlwriter_open_memory lib (some o) st).2.1 = some o' →
      Reachable lib sys k o'
  | operation (k : Option SinkKind) (o : ze_xmlwriter_object) (op : Op) (st : State) :
      Reachable lib sys k o → Reachable lib sys k (op.run lib o st).2.1
  | destruction (k : Option SinkKind) (o : ze_xmlwriter_object) (st : State) :
      Reachable lib sys k o → Reachable lib sys none (xmlwriter_object_dtor o st).1

/-- What holding a writer of a given destination means for the two pointers of
the object: no writer, both unset; a memory writer, both set; a file or stream
writer, the writer pointer set and the output pointer unset. -/
def sink_invariant (k : Option SinkKind) (o : ze_xmlwriter_object) : Prop :=
  match k with
  | none => o.ptr = none ∧ o.output = none
  | some SinkKind.memory => o.ptr ≠ none ∧ o.output ≠ none
  | some SinkKind.file => o.ptr ≠ none ∧ o.output = none
  | some SinkKind.stream => o.ptr ≠ none ∧ o.output = none

/-- The reference behaviour of `writeElement(name)` without content:
`startElement(name)` followed, only if that returned true, by `endElement()`. -/
def start_element_then_end_element (lib : Lib) (self : ze_xmlwriter_object) (name : String)
    (st : State) : Res :=
  let r := xmlwriter_start_element lib self name st
  if r.1 = Outcome.ret (zval.bool true) then xmlwriter_end_element lib r.2.1 r.2.2 else r

/-- The reference behaviour of `writeElementNs(pfx, name, uri)` without content:
`startElementNs(pfx, name, uri)` followed, only if that returned true, by
`endElement()`. -/
def start_element_ns_then_end_element (lib : Lib) (self : ze_xmlwriter_object)
    (pfx : Option String) (name : String) (uri : Option String) (st : State) : Res :=
  let r := xmlwriter_start_element_ns lib self pfx name uri st
  if r.1 = Outcome.ret (zval.bool true) then xmlwriter_end_element lib r.2.1 r.2.2 else r

/-! ## Concrete instances used to evaluate the definitions -/

/-- A validator for ASCII names: a letter, `_` or `:` followed by letters,
digits, `.`, `-`, `_` or `:`; 0 for a valid name and 1 otherwise. -/
def asciiValidateName (name : String) : Int :=
  match name.data with
  | [] => 1
  | c :: cs =>
    if (c.isAlpha || c == '_' || c == ':') &&
        cs.all (fun d => d.isAlphanum || d == '_' || d == ':' || d == '.' || d == '-')
    then 0 else 1

/-- A library whose calls return 0, except that ending an element fails when
nothing has been called before and a flush reports 5 bytes; a flush hands two
chunks to the write callback unless the call before it was a flush as well. -/
def sampleLib : Lib where
  xmlValidateName := asciiValidateName
  ret := fun tr c =>
    match c with
    | xmlTextWriterEndElement _ => if tr = [] then -1 else 0
    | xmlTextWriterFlush _ => 5
    | _ => 0
  emit := fun tr c =>
    match c, tr.getLast? with
    | xmlTextWriterFlush _, some (xmlTextWriterFlush _) => []
    | xmlTextWriterFlush _, _ => ["<a/>", "\n"]
    | _, _ => []
  alloc := fun tr _ => some tr.length
  xmlCreateURI := true
  xmlURIEscapeStr := fun str _ => some str
  xmlParseURIReference := fun str =>
    match str with
    | some u =>
      let pre := u.data.takeWhile (fun c => c != ':')
      if pre.length < u.data.length ∧ pre ≠ [] ∧ pre.all Char.isAlpha then some ⟨pre⟩ else none
    | none => none

/-- A library like `sampleLib` that creates output buffers but no writers. -/
def noWriterLib : Lib :=
  { sampleLib with
    alloc := fun tr c =>
      match c with
      | xmlOutputBufferCreateIO _ => some tr.length
      | _ => none }

/-- A system in which only `/tmp` and `/` exist as directories. -/
def sampleSys : Sys where
  PHP_WIN32 := false
  VCWD_REALPATH := fun _ => none
  expand_filepath := fun path => some path
  zend_dirname := fun path =>
    if path = "/tmp/out.xml" then "/tmp" else if path = "/nodir/out.xml" then "/nodir" else "."
  php_sys_stat := fun path => if path = "/tmp" ∨ path = "." then 0 else -1
  object_init_with_constructor := true

/-- A system like `sampleSys` in which the object construction fails. -/
def failingConstructorSys : Sys :=
  { sampleSys with object_init_with_constructor := false }

/-! ## Theorems -/

/-- C1: every operation that fetches the writer through `XMLWRITER_FROM_OBJECT`,
with any arguments (valid name or not), on an object whose native pointer is unset
throws "Invalid or uninitialized XMLWriter object", records no library call and
leaves the object and the world as they were. -/
theorem uninitialized_object_rejects_every_operation (lib : Lib) (op : Op)
    (self : ze_xmlwriter_object) (st : State) (h : self.ptr = none) :
    op.run lib self st
      = (Outcome.error "Invalid or uninitialized XMLWriter object", self, st) := by
  cases op <;>
    simp [Op.run, xmlwriter_set_indent, xmlwriter_set_indent_string, xmlwriter_start_attribute,
      xmlwriter_end_attribute, xmlwriter_start_attribute_ns, xmlwriter_write_attribute,
      xmlwriter_write_attribute_ns, xmlwriter_start_element, xmlwriter_start_element_ns,
      xmlwriter_end_element, xmlwriter_full_end_element, xmlwriter_write_element,
      xmlwriter_write_element_ns, xmlwriter_start_pi, xmlwriter_end_pi, xmlwriter_write_pi,
      xmlwriter_start_cdata, xmlwriter_end_cdata, xmlwriter_write_cdata, xmlwriter_write_raw,
      xmlwriter_text, xmlwriter_start_comment, xmlwriter_end_comment, xmlwriter_write_comment,
      xmlwriter_start_document, xmlwriter_end_document, xmlwriter_start_dtd, xmlwriter_end_dtd,
      xmlwriter_write_dtd, xmlwriter_start_dtd_element, xmlwriter_end_dtd_element,
      xmlwriter_write_dtd_element, xmlwriter_start_dtd_attlist, xmlwriter_end_dtd_attlist,
      xmlwriter_write_dtd_attlist, xmlwriter_start_dtd_entity, xmlwriter_end_dtd_entity,
      xmlwriter_write_dtd_entity, xmlwriter_flush, xmlwriter_output_memory, php_xmlwriter_flush,
      php_xmlwriter_string_arg, php_xmlwriter_end, XMLWRITER_FROM_OBJECT, h]

/-- Instance of C1: `startElement("1 bad")` on a fresh object. -/
theorem uninitialized_object_rejects_every_operation_witness :
    (⟨none, none⟩ : ze_xmlwriter_object).ptr = none ∧
    sampleLib.xmlValidateName "1 bad" ≠ 0 ∧
    (Op.startElement "1 bad").run sampleLib ⟨none, none⟩ ⟨[], []⟩
      = (Outcome.error "Invalid or uninitialized XMLWriter object", ⟨none, none⟩, ⟨[], []⟩) :=
  ⟨rfl, by decide,
    uninitialized_object_rejects_every_operation sampleLib (Op.startElement "1 bad")
      ⟨none, none⟩ ⟨[], []⟩ rfl⟩

/-- C2: on an initialized writer, each of the sixteen name-taking operations given
a name the validator rejects raises the argument value error of `XMLW_NAME_CHK`
(for the argument position of the name), records no library call and leaves the
object, its memory buffer included, unchanged. -/
theorem rejected_name_raises_value_error_without_write (lib : Lib) (self : ze_xmlwriter_object)
    (st : State) (ptr : xmlTextWriterPtr) (name : String)
    (pfx uri pubid sysid ndataid ocontent : Option String) (content : String) (pe : Bool)
    (hptr : self.ptr = some ptr) (hname : lib.xmlValidateName name ≠ 0) :
    xmlwriter_start_element lib self name st
      = (Outcome.argument_value_error 2 (XMLW_NAME_CHK_msg "element name" name), self, st) ∧
    xmlwriter_start_element_ns lib self pfx name uri st
      = (Outcome.argument_value_error 3 (XMLW_NAME_CHK_msg "element name" name), self, st) ∧
    xmlwriter_write_element lib self name ocontent st
      = (Outcome.argument_value_error 2 (XMLW_NAME_CHK_msg "element name" name), self, st) ∧
    xmlwriter_write_element_ns lib self pfx name uri ocontent st
      = (Outcome.argument_value_error 3 (XMLW_NAME_CHK_msg "element name" name), self, st) ∧
    xmlwriter_start_attribute lib self name st
      = (Outcome.argument_value_error 2 (XMLW_NAME_CHK_msg "attribute name" name), self, st) ∧
    xmlwriter_start_attribute_ns lib self pfx name uri st
      = (Outcome.argument_value_error 3 (XMLW_NAME_CHK_msg "attribute name" name), self, st) ∧
    xmlwriter_write_attribute lib self name content st
      = (Outcome.argument_value_error 2 (XMLW_NAME_CHK_msg "attribute name" name), self, st) ∧
    xmlwriter_write_attribute_ns lib self pfx name uri content st
      = (Outcome.argument_value_error 3 (XMLW_NAME_CHK_msg "attribute name" name), self, st) ∧
    xmlwriter_start_pi lib self name st
      = (Outcome.argument_value_error 2 (XMLW_NAME_CHK_msg "PI target" name), self, st) ∧
    xmlwriter_write_pi lib self name content st
      = (Outcome.argument_value_error 2 (XMLW_NAME_CHK_msg "PI target" name), self, st) ∧
    xmlwriter_start_dtd_element lib self name st
      = (Outcome.argument_value_error 2 (XMLW_NAME_CHK_msg "element name" name), self, st) ∧
    xmlwriter_write_dtd_element lib self name content st
      = (Outcome.argument_value_error 2 (XMLW_NAME_CHK_msg "element name" name), self, st) ∧
    xmlwriter_start_dtd_attlist lib self name st
      = (Outcome.argument_value_error 2 (XMLW_NAME_CHK_msg "element name" name), self, st) ∧
    xmlwriter_write_dtd_attlist lib self name content st
      = (Outcome.argument_value_error 2 (XMLW_NAME_CHK_msg "element name" name), self, st) ∧
    xmlwriter_start_dtd_entity lib self name pe st
      = (Outcome.argument_value_error 2 (XMLW_NAME_CHK_msg "attribute name" name), self, st) ∧
    xmlwriter_write_dtd_entity lib self name content pe pubid sysid ndataid st
      = (Outcome.argument_value_error 2 (XMLW_NAME_CHK_msg "element name" name), self, st) := by
  simp [xmlwriter_start_attribute, xmlwriter_start_attribute_ns, xmlwriter_write_attribute,
    xmlwriter_write_attribute_ns, xmlwriter_start_element, xmlwriter_start_element_ns,
    xmlwriter_write_element, xmlwriter_write_element_ns, xmlwriter_start_pi, xmlwriter_write_pi,
    xmlwriter_start_dtd_element, xmlwriter_write_dtd_element, xmlwriter_start_dtd_attlist,
    xmlwriter_write_dtd_attlist, xmlwriter_start_dtd_entity, xmlwriter_write_dtd_entity,
    php_xmlwriter_string_arg, XMLWRITER_FROM_OBJECT, XMLW_NAME_CHK, hptr, hname]

/-- Instance of C2: the name "1 bad" (leading digit, embedded blank) on a
memory-backed writer holding some output. -/
theorem rejected_name_raises_value_error_without_write_witness :
    sampleLib.xmlValidateName "1 bad" ≠ 0 ∧ sampleLib.xmlValidateName "" ≠ 0 ∧
    xmlwriter_start_element sampleLib ⟨some 1, some ⟨"<r>"⟩⟩ "1 bad" ⟨[], []⟩
      = (Outcome.argument_value_error 2 "must be a valid element name, \"1 bad\" given",
          ⟨some 1, some ⟨"<r>"⟩⟩, ⟨[], []⟩) :=
  ⟨by decide, by decide,
    (rejected_name_raises_value_error_without_write sampleLib ⟨some 1, some ⟨"<r>"⟩⟩ ⟨[], []⟩ 1
      "1 bad" none none none none none none "" false rfl (by decide)).1⟩

/-- C3 evaluated on the code: `startDtd` and `writeDtd` with the name "1 bad",
which the validator rejects, raise no error: they hand the name to
`xmlTextWriterStartDTD` / `xmlTextWriterWriteDTD` and return true, whereas the
sibling `startDtdElement` raises the value error. -/
theorem start_dtd_and_write_dtd_forward_rejected_name :
    sampleLib.xmlValidateName "1 bad" ≠ 0 ∧
    xmlwriter_start_dtd sampleLib ⟨some 1, none⟩ "1 bad" none none ⟨[], []⟩
      = (Outcome.ret (zval.bool true), ⟨some 1, none⟩,
          ⟨[xmlTextWriterStartDTD 1 "1 bad" none none], []⟩) ∧
    xmlwriter_write_dtd sampleLib ⟨some 1, none⟩ "1 bad" none none none ⟨[], []⟩
      = (Outcome.ret (zval.bool true), ⟨some 1, none⟩,
          ⟨[xmlTextWriterWriteDTD 1 "1 bad" none none none], []⟩) ∧
    xmlwriter_start_dtd_element sampleLib ⟨some 1, none⟩ "1 bad" ⟨[], []⟩
      = (Outcome.argument_value_error 2 "must be a valid element name, \"1 bad\" given",
          ⟨some 1, none⟩, ⟨[], []⟩) := by
  refine ⟨by decide, by decide, by decide, by decide⟩

/-- C4: on an initialized writer, each of the ten operations routed through
`php_xmlwriter_string_arg` (setIndentString, startAttribute, startElement, startPi,
writeCdata, writeRaw, text, writeComment, startDtdElement, startDtdAttlist; the
name being valid where a subject is given) and each of the eleven routed through
`php_xmlwriter_end` (endAttribute, endElement, fullEndElement, endPi, endCdata,
endComment, endDocument, endDtd, endDtdElement, endDtdAttlist, endDtdEntity)
appends exactly one call to the trace, namely its library function applied to the
writer and the unchanged argument, and returns the boolean "the library's result
is not -1"; the writer pointer stays and no warning is raised.  The same holds
for the two helpers with any library function and subject. -/
theorem string_arg_and_end_forward_one_call (lib : Lib) (self : ze_xmlwriter_object)
    (st : State) (ptr : xmlTextWriterPtr)
    (internal_function : xmlTextWriterPtr → String → LibCall)
    (end_function : xmlTextWriterPtr → LibCall)
    (subject_name : Option String) (arg name content : String)
    (hptr : self.ptr = some ptr)
    (hsubject : subject_name ≠ none → lib.xmlValidateName arg = 0)
    (hname : lib.xmlValidateName name = 0) :
    (php_xmlwriter_string_arg lib internal_function subject_name self arg st
      = (Outcome.ret (zval.bool (decide (lib.ret st.trace (internal_function ptr arg) ≠ -1))),
          { self with
            output := self.output.map
                        (fun o => feed_memory o (lib.emit st.trace (internal_function ptr arg))) },
          { st with trace := st.trace ++ [internal_function ptr arg] })) ∧
    (php_xmlwriter_end lib end_function self st
      = (Outcome.ret (zval.bool (decide (lib.ret st.trace (end_function ptr) ≠ -1))),
          { self with
            output := self.output.map
                        (fun o => feed_memory o (lib.emit st.trace (end_function ptr))) },
          { st with trace := st.trace ++ [end_function ptr] })) ∧
    (xmlwriter_set_indent_string lib self content st
      = (Outcome.ret (zval.bool (decide (lib.ret st.trace (xmlTextWriterSetIndentString ptr content) ≠ -1))),
          { self with
            output := self.output.map
                        (fun o => feed_memory o (lib.emit st.trace (xmlTextWriterSetIndentString ptr content))) },
          { st with trace := st.trace ++ [xmlTextWriterSetIndentString ptr content] })) ∧
    (xmlwriter_start_attribute lib self name st
      = (Outcome.ret (zval.bool (decide (lib.ret st.trace (xmlTextWriterStartAttribute ptr name) ≠ -1))),
          { self with
            output := self.output.map
                        (fun o => feed_memory o (lib.emit st.trace (xmlTextWriterStartAttribute ptr name))) },
          { st with trace := st.trace ++ [xmlTextWriterStartAttribute ptr name] })) ∧
    (xmlwriter_start_element lib self name st
      = (Outcome.ret (zval.bool (decide (lib.ret st.trace (xmlTextWriterStartElement ptr name) ≠ -1))),
          { self with
            output := self.output.map
                        (fun o => feed_memory o (lib.emit st.trace (xmlTextWriterStartElement ptr name))) },
          { st with trace := st.trace ++ [xmlTextWriterStartElement ptr name] })) ∧
    (xmlwriter_start_pi lib self name st
      = (Outcome.ret (zval.bool (decide (lib.ret st.trace (xmlTextWriterStartPI ptr name) ≠ -1))),
          { self with
            output := self.output.map
                        (fun o => feed_memory o (lib.emit st.trace (xmlTextWriterStartPI ptr name))) },
          { st with trace := st.trace ++ [xmlTextWriterStartPI ptr name] })) ∧
    (xmlwriter_write_cdata lib self content st
      = (Outcome.ret (zval.bool (decide (lib.ret st.trace (xmlTextWriterWriteCDATA ptr content) ≠ -1))),
          { self with
            output := self.output.map
                        (fun o => feed_memory o (lib.emit st.trace (xmlTextWriterWriteCDATA ptr content))) },
          { st with trace := st.trace ++ [xmlTextWriterWriteCDATA ptr content] })) ∧
    (xmlwriter_write_raw lib self content st
      = (Outcome.ret (zval.bool (decide (lib.ret st.trace (xmlTextWriterWriteRaw ptr content) ≠ -1))),
          { self with
            output := self.output.map
                        (fun o => feed_memory o (lib.emit st.trace (xmlTextWriterWriteRaw ptr content))) },
          { st with trace := st.trace ++ [xmlTextWriterWriteRaw ptr content] })) ∧
    (xmlwriter_text lib self content st
      = (Outcome.ret (zval.bool (decide (lib.ret st.trace (xmlTextWriterWriteString ptr content) ≠ -1))),
          { self with
            output := self.output.map
                        (fun o => feed_memory o (lib.emit st.trace (xmlTextWriterWriteString ptr content))) },
          { st with trace := st.trace ++ [xmlTextWriterWriteString ptr content] })) ∧
    (xmlwriter_write_comment lib self content st
      = (Outcome.ret (zval.bool (decide (lib.ret st.trace (xmlTextWriterWriteComment ptr content) ≠ -1))),
          { self with
            output := self.output.map
                        (fun o => feed_memory o (lib.emit st.trace (xmlTextWriterWriteComment ptr content))) },
          { st with trace := st.trace ++ [xmlTextWriterWriteComment ptr content] })) ∧
    (xmlwriter_start_dtd_element lib self name st
      = (Outcome.ret (zval.bool (decide (lib.ret st.trace (xmlTextWriterStartDTDElement ptr name) ≠ -1))),
          { self with
            output := self.output.map
                        (fun o => feed_memory o (lib.emit st.trace (xmlTextWriterStartDTDElement ptr name))) },
          { st with trace := st.trace ++ [xmlTextWriterStartDTDElement ptr name] })) ∧
    (xmlwriter_start_dtd_attlist lib self name st
      = (Outcome.ret (zval.bool (decide (lib.ret st.trace (xmlTextWriterStartDTDAttlist ptr name) ≠ -1))),
          { self with
            output := self.output.map
                        (fun o => feed_memory o (lib.emit st.trace (xmlTextWriterStartDTDAttlist ptr name))) },
          { st with trace := st.trace ++ [xmlTextWriterStartDTDAttlist ptr name] })) ∧
    (xmlwriter_end_attribute lib self st
      = (Outcome.ret (zval.bool (decide (lib.ret st.trace (xmlTextWriterEndAttribute ptr) ≠ -1))),
          { self with
            output := self.output.map
                        (fun o => feed_memory o (lib.emit st.trace (xmlTextWriterEndAttribute ptr))) },
          { st with trace := st.trace ++ [xmlTextWriterEndAttribute ptr] })) ∧
    (xmlwriter_end_element lib self st
      = (Outcome.ret (zval.bool (decide (lib.ret st.trace (xmlTextWriterEndElement ptr) ≠ -1))),
          { self with
            output := self.output.map
                        (fun o => feed_memory o (lib.emit st.trace (xmlTextWriterEndElement ptr))) },
          { st with trace := st.trace ++ [xmlTextWriterEndElement ptr] })) ∧
    (xmlwriter_full_end_element lib self st
      = (Outcome.ret (zval.bool (decide (lib.ret st.trace (xmlTextWriterFullEndElement ptr) ≠ -1))),
          { self with
            output := self.output.map
                        (fun o => feed_memory o (lib.emit st.trace (xmlTextWriterFullEndElement ptr))) },
          { st with trace := st.trace ++ [xmlTextWriterFullEndElement ptr] })) ∧
    (xmlwriter_end_pi lib self st
      = (Outcome.ret (zval.bool (decide (lib.ret st.trace (xmlTextWriterEndPI ptr) ≠ -1))),
          { self with
            output := self.output.map
                        (fun o => feed_memory o (lib.emit st.trace (xmlTextWriterEndPI ptr))) },
          { st with trace := st.trace ++ [xmlTextWriterEndPI ptr] })) ∧
    (xmlwriter_end_cdata lib self st
      = (Outcome.ret (zval.bool (decide (lib.ret st.trace (xmlTextWriterEndCDATA ptr) ≠ -1))),
          { self with
            output := self.output.map
                        (fun o => feed_memory o (lib.emit st.trace (xmlTextWriterEndCDATA ptr))) },
          { st with trace := st.trace ++ [xmlTextWriterEndCDATA ptr] })) ∧
    (xmlwriter_end_comment lib self st
      = (Outcome.ret (zval.bool (decide (lib.ret st.trace (xmlTextWriterEndComment ptr) ≠ -1))),
          { self with
            output := self.output.map
                        (fun o => feed_memory o (lib.emit st.trace (xmlTextWriterEndComment ptr))) },
          { st with trace := st.trace ++ [xmlTextWriterEndComment ptr] })) ∧
    (xmlwriter_end_document lib self st
      = (Outcome.ret (zval.bool (decide (lib.ret st.trace (xmlTextWriterEndDocument ptr) ≠ -1))),
          { self with
            output := self.output.map
                        (fun o => feed_memory o (lib.emit st.trace (xmlTextWriterEndDocument ptr))) },
          { st with trace := st.trace ++ [xmlTextWriterEndDocument ptr] })) ∧
    (xmlwriter_end_dtd lib self st
      = (Outcome.ret (zval.bool (decide (lib.ret st.trace (xmlTextWriterEndDTD ptr) ≠ -1))),
          { self with
            output := self.output.map
                        (fun o => feed_memory o (lib.emit st.trace (xmlTextWriterEndDTD ptr))) },
          { st with trace := st.trace ++ [xmlTextWriterEndDTD ptr] })) ∧
    (xmlwriter_end_dtd_element lib self st
      = (Outcome.ret (zval.bool (decide (lib.ret st.trace (xmlTextWriterEndDTDElement ptr) ≠ -1))),
          { self with
            output := self.output.map
                        (fun o => feed_memory o (lib.emit st.trace (xmlTextWriterEndDTDElement ptr))) },
          { st with trace := st.trace ++ [xmlTextWriterEndDTDElement ptr] })) ∧
    (xmlwriter_end_dtd_attlist lib self st
      = (Outcome.ret (zval.bool (decide (lib.ret st.trace (xmlTextWriterEndDTDAttlist ptr) ≠ -1))),
          { self with
            output := self.output.map
                        (fun o => feed_memory o (lib.emit st.trace (xmlTextWriterEndDTDAttlist ptr))) },
          { st with trace := st.trace ++ [xmlTextWriterEndDTDAttlist ptr] })) ∧
    (xmlwriter_end_dtd_entity lib self st
      = (Outcome.ret (zval.bool (decide (lib.ret st.trace (xmlTextWriterEndDTDEntity ptr) ≠ -1))),
          { self with
            output := self.output.map
                        (fun o => feed_memory o (lib.emit st.trace (xmlTextWriterEndDTDEntity ptr))) },
          { st with trace := st.trace ++ [xmlTextWriterEndDTDEntity ptr] })) := by
  have hb : ∀ x : Int, (x != -1) = !decide (x = -1) := by
    intro x
    by_cases hx : x = -1 <;> simp [hx]
  have hs : ∀ (f : xmlTextWriterPtr → String → LibCall) (subject : Option String) (a : String),
      (subject ≠ none → lib.xmlValidateName a = 0) →
      php_xmlwriter_string_arg lib f subject self a st
        = (Outcome.ret (zval.bool (decide (lib.ret st.trace (f ptr a) ≠ -1))),
            { self with
              output := self.output.map (fun o => feed_memory o (lib.emit st.trace (f ptr a))) },
            { st with trace := st.trace ++ [f ptr a] }) := by
    intro f subject a hv
    cases subject with
    | none =>
      simp [php_xmlwriter_string_arg, XMLWRITER_FROM_OBJECT, RETURN_BOOL_ne_m1, Lib.call, hptr, hb]
    | some sub =>
      have hv0 : lib.xmlValidateName a = 0 := hv (by simp)
      simp [php_xmlwriter_string_arg, XMLWRITER_FROM_OBJECT, XMLW_NAME_CHK, RETURN_BOOL_ne_m1,
        Lib.call, hptr, hv0, hb]
  have he : ∀ (g : xmlTextWriterPtr → LibCall),
      php_xmlwriter_end lib g self st
        = (Outcome.ret (zval.bool (decide (lib.ret st.trace (g ptr) ≠ -1))),
            { self with
              output := self.output.map (fun o => feed_memory o (lib.emit st.trace (g ptr))) },
            { st with trace := st.trace ++ [g ptr] }) := by
    intro g
    simp [php_xmlwriter_end, XMLWRITER_FROM_OBJECT, RETURN_BOOL_ne_m1, Lib.call, hptr, hb]
  exact ⟨
    hs internal_function subject_name arg hsubject, he end_function,
    hs xmlTextWriterSetIndentString none content (fun h => absurd rfl h),
    hs xmlTextWriterStartAttribute (some "attribute name") name (fun _ => hname),
    hs xmlTextWriterStartElement (some "element name") name (fun _ => hname),
    hs xmlTextWriterStartPI (some "PI target") name (fun _ => hname),
    hs xmlTextWriterWriteCDATA none content (fun h => absurd rfl h),
    hs xmlTextWriterWriteRaw none content (fun h => absurd rfl h),
    hs xmlTextWriterWriteString none content (fun h => absurd rfl h),
    hs xmlTextWriterWriteComment none content (fun h => absurd rfl h),
    hs xmlTextWriterStartDTDElement (some "element name") name (fun _ => hname),
    hs xmlTextWriterStartDTDAttlist (some "element name") name (fun _ => hname),
    he xmlTextWriterEndAttribute, he xmlTextWriterEndElement, he xmlTextWriterFullEndElement,
    he xmlTextWriterEndPI, he xmlTextWriterEndCDATA, he xmlTextWriterEndComment,
    he xmlTextWriterEndDocument, he xmlTextWriterEndDTD, he xmlTextWriterEndDTDElement,
    he xmlTextWriterEndDTDAttlist, he xmlTextWriterEndDTDEntity⟩

/-- Instance of C4: `startElement("root")` returns true on result 0, `text("x")`
forwards its content, and `endElement()` as the first call returns false on
result -1; each records one call. -/
theorem string_arg_and_end_forward_one_call_witness :
    sampleLib.xmlValidateName "root" = 0 ∧
    xmlwriter_start_element sampleLib ⟨some 1, none⟩ "root" ⟨[], []⟩
      = (Outcome.ret (zval.bool true), ⟨some 1, none⟩,
          ⟨[xmlTextWriterStartElement 1 "root"], []⟩) ∧
    xmlwriter_text sampleLib ⟨some 1, none⟩ "x" ⟨[], []⟩
      = (Outcome.ret (zval.bool true), ⟨some 1, none⟩, ⟨[xmlTextWriterWriteString 1 "x"], []⟩) ∧
    xmlwriter_end_element sampleLib ⟨some 1, none⟩ ⟨[], []⟩
      = (Outcome.ret (zval.bool false), ⟨some 1, none⟩, ⟨[xmlTextWriterEndElement 1], []⟩) :=
  ⟨by decide,
    (string_arg_and_end_forward_one_call sampleLib ⟨some 1, none⟩ ⟨[], []⟩ 1
      xmlTextWriterStartElement xmlTextWriterEndElement (some "element name") "root" "root" "x"
      rfl (fun _ => by decide) (by decide)).2.2.2.2.1,
    (string_arg_and_end_forward_one_call sampleLib ⟨some 1, none⟩ ⟨[], []⟩ 1
      xmlTextWriterStartElement xmlTextWriterEndElement (some "element name") "root" "root" "x"
      rfl (fun _ => by decide) (by decide)).2.2.2.2.2.2.2.2.1,
    (string_arg_and_end_forward_one_call sampleLib ⟨some 1, none⟩ ⟨[], []⟩ 1
      xmlTextWriterStartElement xmlTextWriterEndElement (some "element name") "root" "root" "x"
      rfl (fun _ => by decide) (by decide)).2.2.2.2.2.2.2.2.2.2.2.2.2.1⟩

/-! ### The memory sink -/

/-- C7: for an initialized writer without memory buffer (file or stream
destination), `flush` with the flag true, false or omitted returns as an integer
the value the library's flush returned, after exactly that one library call. -/
theorem flush_without_buffer_returns_byte_count (lib : Lib) (self : ze_xmlwriter_object)
    (ptr : xmlTextWriterPtr) (empty : Option Bool) (st : State)
    (hptr : self.ptr = some ptr) (hout : self.output = none) :
    xmlwriter_flush lib self empty st
      = (Outcome.ret (zval.long (lib.ret st.trace (xmlTextWriterFlush ptr))), self,
          { st with trace := st.trace ++ [xmlTextWriterFlush ptr] }) := by
  cases self with
  | mk p o =>
    simp only at hptr hout
    subst hptr hout
    simp [xmlwriter_flush, php_xmlwriter_flush, XMLWRITER_FROM_OBJECT, Lib.call]

/-- Instance of C7: the library reports 5 bytes, `flush(false)` returns 5. -/
theorem flush_without_buffer_returns_byte_count_witness :
    xmlwriter_flush sampleLib ⟨some 1, none⟩ (some false) ⟨[], []⟩
      = (Outcome.ret (zval.long 5), ⟨some 1, none⟩, ⟨[xmlTextWriterFlush 1], []⟩) :=
  flush_without_buffer_returns_byte_count sampleLib ⟨some 1, none⟩ 1 (some false) ⟨[], []⟩ rfl rfl

/-! ### The destination resolver -/

theorem char_eq_of_toNat_sub_eq_zero (a b : Char) (h : (a.toNat : Int) - (b.toNat : Int) = 0) :
    a = b := by
  have hn : a.toNat = b.toNat := by omega
  rw [← Char.ofNat_toNat a, ← Char.ofNat_toNat b, hn]

/-- For a lower-case pattern without NUL, `strncasecmp` over the pattern's length
returns 0 exactly when the string begins with the pattern up to case. -/
theorem strncasecmp_eq_zero_iff (p : List Char) (hp : ∀ c ∈ p, c.toLower = c ∧ c ≠ '\x00')
    (s : List Char) :
    strncasecmp s p p.length = 0 ↔ (s.take p.length).map Char.toLower = p := by
  induction p generalizing s with
  | nil => simp [strncasecmp]
  | cons c p ih =>
    have hc := hp c (List.mem_cons_self c p)
    have hp' : ∀ d ∈ p, d.toLower = d ∧ d ≠ '\x00' :=
      fun d hd => hp d (List.mem_cons_of_mem c hd)
    simp only [List.length_cons, strncasecmp, char_at, List.getD_cons_zero, hc.1]
    cases s with
    | nil =>
      have h0 : ('\x00' : Char).toLower = '\x00' := by decide
      have hne : ¬ ('\x00' : Char) = c := fun h => hc.2 h.symm
      simp only [List.getD_nil, h0, ne_eq, hne, not_false_eq_true, if_true, List.take_nil,
        List.map_nil]
      constructor
      · intro h
        exact absurd (char_eq_of_toNat_sub_eq_zero _ _ h) hne
      · intro h
        cases h
    | cons a s =>
      simp only [List.getD_cons_zero, List.tail_cons, List.take_succ_cons, List.map_cons,
        List.cons.injEq]
      by_cases hac : a.toLower = c
      · simp only [hac, ne_eq, not_true_eq_false, if_false, true_and]
        rw [if_neg hc.2]
        exact ih hp' s
      · simp only [ne_eq, hac, not_false_eq_true, if_true, false_and, iff_false]
        intro h
        exact hac (char_eq_of_toNat_sub_eq_zero _ _ h)

theorem strncasecmp_file_slash (s : List Char) :
    strncasecmp s "file:///".data 8 = 0 ↔ (s.take 8).map Char.toLower = "file:///".data :=
  strncasecmp_eq_zero_iff "file:///".data (by decide) s

theorem strncasecmp_file_localhost (s : List Char) :
    strncasecmp s "file://localhost/".data 17 = 0
      ↔ (s.take 17).map Char.toLower = "file://localhost/".data :=
  strncasecmp_eq_zero_iff "file://localhost/".data (by decide) s

/-- C8 fails as stated: "http://example.com/out.xml" has the scheme "http" and
begins with neither `file:///` nor `file://localhost/`, yet the resolver returns
it as the destination, and openUri, as a function and as a method, opens a writer
on it. -/
theorem other_scheme_source_is_not_rejected :
    sampleLib.xmlParseURIReference (sampleLib.xmlURIEscapeStr "http://example.com/out.xml" ":")
      = some "http" ∧
    ("http://example.com/out.xml".data.take 8).map Char.toLower ≠ "file:///".data ∧
    ("http://example.com/out.xml".data.take 17).map Char.toLower ≠ "file://localhost/".data ∧
    (_xmlwriter_get_valid_file_path sampleLib sampleSys "http://example.com/out.xml").1
      = some "http://example.com/out.xml" ∧
    xmlwriter_open_uri sampleLib sampleSys none "http://example.com/out.xml" ⟨[], []⟩
      = (Outcome.ret (zval.obj ⟨some 0, none⟩), none,
          ⟨[xmlNewTextWriterFilename "http://example.com/out.xml" 0], []⟩) ∧
    (xmlwriter_open_uri sampleLib sampleSys (some ⟨none, none⟩) "http://example.com/out.xml"
        ⟨[], []⟩).1 = Outcome.ret (zval.bool true) := by
  refine ⟨by decide, by decide, by decide, by decide, by decide, by decide⟩

/-- C8 as amended: a source whose parsed URI has a scheme and that begins, up to
case, with neither `file:///` nor `file://localhost/` is not rejected: the
resolver returns it unchanged, without path resolution or directory check.
openUri and toUri, given a non-empty source (an empty one raises the
must-not-be-empty error), then pass exactly this source to
`xmlNewTextWriterFilename`.  When the library returns no writer, openUri returns
false and toUri throws.  When it returns a writer, openUri succeeds (as a function
it returns the new object, as a method it destroys the old writer, holds the new
one and returns true), and toUri returns the new object if the object
construction succeeds and otherwise frees the writer and fails. -/
theorem other_scheme_source_is_passed_to_library (lib : Lib) (sys : Sys) (source : String)
    (obj : ze_xmlwriter_object) (st : State)
    (hcreate : lib.xmlCreateURI = true)
    (hscheme : lib.xmlParseURIReference (lib.xmlURIEscapeStr source ":") ≠ none)
    (h8 : (source.data.take 8).map Char.toLower ≠ "file:///".data)
    (h17 : (source.data.take 17).map Char.toLower ≠ "file://localhost/".data) :
    _xmlwriter_get_valid_file_path lib sys source = (some source, []) ∧
    (source.length = 0 →
      xmlwriter_open_uri lib sys none source st
        = (Outcome.argument_must_not_be_empty_error 1, none, st) ∧
      xmlwriter_open_uri lib sys (some obj) source st
        = (Outcome.argument_must_not_be_empty_error 1, some obj, st) ∧
      XMLWriter_toUri lib sys source st = (Outcome.argument_must_not_be_empty_error 1, st)) ∧
    (source.length ≠ 0 →
      (∀ w, lib.alloc st.trace (xmlNewTextWriterFilename source 0) = some w →
        xmlwriter_open_uri lib sys none source st
          = (Outcome.ret (zval.obj ⟨some w, none⟩), none,
              { st with trace := st.trace ++ [xmlNewTextWriterFilename source 0] }) ∧
        xmlwriter_open_uri lib sys (some obj) source st
          = (Outcome.ret (zval.bool true), some ⟨some w, none⟩,
              (xmlwriter_destroy_libxml_objects obj
                { st with trace := st.trace ++ [xmlNewTextWriterFilename source 0] }).2) ∧
        (sys.object_init_with_constructor = true →
          XMLWriter_toUri lib sys source st
            = (Outcome.ret (zval.obj ⟨some w, none⟩),
                { st with trace := st.trace ++ [xmlNewTextWriterFilename source 0] })) ∧
        (sys.object_init_with_constructor = false →
          XMLWriter_toUri lib sys source st
            = (Outcome.constructor_failed,
                { st with
                  trace := st.trace ++ [xmlNewTextWriterFilename source 0] ++
                            [xmlFreeTextWriter w] }))) ∧
      (lib.alloc st.trace (xmlNewTextWriterFilename source 0) = none →
        xmlwriter_open_uri lib sys none source st
          = (Outcome.ret (zval.bool false), none,
              { st with trace := st.trace ++ [xmlNewTextWriterFilename source 0] }) ∧
        xmlwriter_open_uri lib sys (some obj) source st
          = (Outcome.ret (zval.bool false), some obj,
              { st with trace := st.trace ++ [xmlNewTextWriterFilename source 0] }) ∧
        XMLWriter_toUri lib sys source st
          = (Outcome.error "Could not construct libxml writer",
              { st with trace := st.trace ++ [xmlNewTextWriterFilename source 0] }))) := by
  have hs : (lib.xmlParseURIReference (lib.xmlURIEscapeStr source ":")).isSome = true :=
    Option.isSome_iff_ne_none.mpr hscheme
  have hres : _xmlwriter_get_valid_file_path lib sys source = (some source, []) := by
    have n8 : ¬ strncasecmp source.data "file:///".data 8 = 0 :=
      fun h => h8 ((strncasecmp_file_slash _).mp h)
    have n17 : ¬ strncasecmp source.data "file://localhost/".data 17 = 0 :=
      fun h => h17 ((strncasecmp_file_localhost _).mp h)
    simp only [_xmlwriter_get_valid_file_path, hcreate, hs, n8, n17, not_true_eq_false, if_false,
      if_true]
  refine ⟨hres, fun h0 => ⟨?_, ?_, ?_⟩,
    fun hne => ⟨fun w hw => ⟨?_, ?_, ?_, ?_⟩, fun hn => ⟨?_, ?_, ?_⟩⟩⟩
  · simp [xmlwriter_open_uri, h0]
  · simp [xmlwriter_open_uri, h0]
  · simp [XMLWriter_toUri, h0]
  · simp [xmlwriter_open_uri, hne, hres, hw]
  · simp [xmlwriter_open_uri, hne, hres, hw]
  · intro hk
    simp [XMLWriter_toUri, xml_writer_create_static, hne, hres, hw, hk]
  · intro hk
    simp [XMLWriter_toUri, xml_writer_create_static, hne, hres, hw, hk]
  · simp [xmlwriter_open_uri, hne, hres, hn]
  · simp [xmlwriter_open_uri, hne, hres, hn]
  · simp [XMLWriter_toUri, hne, hres, hn]

/-- Instance of amended C8: "ftp://host/out.xml" goes to the library unchanged;
toUri returns the object when the construction succeeds, and frees the writer
and fails when it does not. -/
theorem other_scheme_source_is_passed_to_library_witness :
    _xmlwriter_get_valid_file_path sampleLib sampleSys "ftp://host/out.xml"
      = (some "ftp://host/out.xml", []) ∧
    XMLWriter_toUri sampleLib sampleSys "ftp://host/out.xml" ⟨[], []⟩
      = (Outcome.ret (zval.obj ⟨some 0, none⟩),
          ⟨[xmlNewTextWriterFilename "ftp://host/out.xml" 0], []⟩) ∧
    XMLWriter_toUri sampleLib failingConstructorSys "ftp://host/out.xml" ⟨[], []⟩
      = (Outcome.constructor_failed,
          ⟨[xmlNewTextWriterFilename "ftp://host/out.xml" 0, xmlFreeTextWriter 0], []⟩) :=
  ⟨(other_scheme_source_is_passed_to_library sampleLib sampleSys "ftp://host/out.xml"
      ⟨none, none⟩ ⟨[], []⟩ rfl (by decide) (by decide) (by decide)).1,
    ((other_scheme_source_is_passed_to_library sampleLib sampleSys "ftp://host/out.xml"
      ⟨none, none⟩ ⟨[], []⟩ rfl (by decide) (by decide) (by decide)).2.2 (by decide)).1 0
      rfl |>.2.2.1 rfl,
    ((other_scheme_source_is_passed_to_library sampleLib failingConstructorSys
      "ftp://host/out.xml" ⟨none, none⟩ ⟨[], []⟩ rfl (by decide) (by decide) (by decide)).2.2
      (by decide)).1 0 rfl |>.2.2.2 rfl⟩

/-- The local block resolves the path it is given: its first runtime call is
`VCWD_REALPATH` on that path, and it makes no call on any other path, except the
stat on the directory part of that path. -/
theorem resolve_local_path_calls (sys : Sys) (p : String) :
    (resolve_local_path sys p).2.head? = some (SysCall.VCWD_REALPATH p) ∧
    ∀ c ∈ (resolve_local_path sys p).2,
      c = SysCall.VCWD_REALPATH p ∨ c = SysCall.expand_filepath p ∨
      c = SysCall.zend_dirname p ∨ c = SysCall.php_sys_stat (sys.zend_dirname p) := by
  unfold resolve_local_path
  cases h1 : sys.VCWD_REALPATH p <;> cases h2 : sys.expand_filepath p <;>
    simp [h1, h2] <;> split_ifs <;> simp

/-- The local block yields no path when the directory part is non-empty and its
stat fails. -/
theorem resolve_local_path_none (sys : Sys) (p : String)
    (hdir : 0 < (sys.zend_dirname p).length)
    (hstat : sys.php_sys_stat (sys.zend_dirname p) ≠ 0) :
    (resolve_local_path sys p).1 = none := by
  unfold resolve_local_path
  cases h1 : sys.VCWD_REALPATH p <;> cases h2 : sys.expand_filepath p <;>
    simp [h1, h2, hdir, hstat]

theorem take8_of_file_localhost (s : List Char)
    (h : (s.take 17).map Char.toLower = "file://localhost/".data) :
    (s.take 8).map Char.toLower ≠ "file:///".data := by
  have h8 : (s.take 8).map Char.toLower = List.take 8 ((s.take 17).map Char.toLower) := by
    rw [← List.map_take, List.take_take]
    rfl
  rw [h8, h]
  decide

theorem char_at_ne_nul (s : List Char) (i : Nat) (hi : i < s.length)
    (hnul : ∀ c ∈ s, c ≠ '\x00') : char_at s i ≠ '\x00' := by
  unfold char_at
  rw [List.getD_eq_getElem s '\x00' hi]
  exact hnul _ (List.getElem_mem hi)

theorem char_at_length (s : List Char) : char_at s s.length = '\x00' := by
  unfold char_at
  simp [List.getD_eq_default]

theorem toLower_eq_slash (a : Char) (h : a.toLower = '/') : a = '/' := by
  by_cases hr : a.toNat ≥ 65 ∧ a.toNat ≤ 90
  · exfalso
    have h' : Char.ofNat (a.toNat + 32) = '/' := by
      have h2 := h
      simp only [Char.toLower, hr, and_self, if_true] at h2
      exact h2
    obtain ⟨h1, h2⟩ := hr
    generalize a.toNat = n at h' h1 h2
    interval_cases n <;> revert h' <;> decide
  · have h2 := h
    simp only [Char.toLower, hr, if_false] at h2
    exact h2

/-- When a string begins, up to case, with a pattern whose last character is `/`,
what remains after dropping all but the last character of the match begins with `/`. -/
theorem head_drop_of_prefix (s : List Char) (n : Nat) (p : List Char)
    (h : (s.take (n + 1)).map Char.toLower = p) (hp : p[n]? = some '/') :
    (s.drop n).head? = some '/' := by
  have h7 := congrArg (fun l => l[n]?) h
  simp only [List.getElem?_map, hp] at h7
  rw [List.getElem?_take_of_lt (Nat.lt_succ_self n)] at h7
  rw [List.head?_drop]
  cases hs : s[n]? with
  | none => rw [hs] at h7; simp at h7
  | some a =>
    rw [hs] at h7
    simp only [Option.map_some', Option.some.injEq] at h7
    rw [toLower_eq_slash a h7]

/-- C9: for a source (a C string, so without NUL) whose parsed URI has a scheme,
on a non-Windows build.  If it begins, up to case, with `file:///`: when nothing
follows the resolver returns NULL without any runtime call; otherwise it runs the
local block on the source with its first 7 characters removed, which begins with
`/`: `VCWD_REALPATH` is called first, on that path, and every runtime call is
path resolution or `zend_dirname` on that path or the stat of its directory part.
The same holds for `file://localhost/` with 16 characters removed. -/
theorem file_uri_prefix_is_stripped (lib : Lib) (sys : Sys) (source : String)
    (hcreate : lib.xmlCreateURI = true)
    (hscheme : lib.xmlParseURIReference (lib.xmlURIEscapeStr source ":") ≠ none)
    (hwin : sys.PHP_WIN32 = false)
    (hnul : ∀ c ∈ source.data, c ≠ '\x00') :
    ((source.data.take 8).map Char.toLower = "file:///".data →
      (source.data.length = 8 → _xmlwriter_get_valid_file_path lib sys source = (none, [])) ∧
      (8 < source.data.length →
        _xmlwriter_get_valid_file_path lib sys source
          = resolve_local_path sys ⟨source.data.drop 7⟩ ∧
        (source.data.drop 7).head? = some '/' ∧
        (_xmlwriter_get_valid_file_path lib sys source).2.head?
          = some (SysCall.VCWD_REALPATH ⟨source.data.drop 7⟩) ∧
        ∀ c ∈ (_xmlwriter_get_valid_file_path lib sys source).2,
          c = SysCall.VCWD_REALPATH ⟨source.data.drop 7⟩ ∨
          c = SysCall.expand_filepath ⟨source.data.drop 7⟩ ∨
          c = SysCall.zend_dirname ⟨source.data.drop 7⟩ ∨
          c = SysCall.php_sys_stat (sys.zend_dirname ⟨source.data.drop 7⟩))) ∧
    ((source.data.take 17).map Char.toLower = "file://localhost/".data →
      (source.data.length = 17 → _xmlwriter_get_valid_file_path lib sys source = (none, [])) ∧
      (17 < source.data.length →
        _xmlwriter_get_valid_file_path lib sys source
          = resolve_local_path sys ⟨source.data.drop 16⟩ ∧
        (source.data.drop 16).head? = some '/' ∧
        (_xmlwriter_get_valid_file_path lib sys source).2.head?
          = some (SysCall.VCWD_REALPATH ⟨source.data.drop 16⟩) ∧
        ∀ c ∈ (_xmlwriter_get_valid_file_path lib sys source).2,
          c = SysCall.VCWD_REALPATH ⟨source.data.drop 16⟩ ∨
          c = SysCall.expand_filepath ⟨source.data.drop 16⟩ ∨
          c = SysCall.zend_dirname ⟨source.data.drop 16⟩ ∨
          c = SysCall.php_sys_stat (sys.zend_dirname ⟨source.data.drop 16⟩))) := by
  have hs : (lib.xmlParseURIReference (lib.xmlURIEscapeStr source ":")).isSome = true :=
    Option.isSome_iff_ne_none.mpr hscheme
  constructor
  · intro h8
    have c8 : strncasecmp source.data "file:///".data 8 = 0 := (strncasecmp_file_slash _).mpr h8
    constructor
    · intro hlen
      have hz : char_at source.data 8 = '\x00' := by
        rw [← hlen]
        exact char_at_length _
      simp only [_xmlwriter_get_valid_file_path, hcreate, hs, c8, hz, not_true_eq_false, if_false,
        if_true]
    · intro hlen
      have hz : ¬ char_at source.data 8 = '\x00' := char_at_ne_nul _ _ hlen hnul
      have hres : _xmlwriter_get_valid_file_path lib sys source
          = resolve_local_path sys ⟨source.data.drop 7⟩ := by
        simp [_xmlwriter_get_valid_file_path, hcreate, hs, c8, hz, hwin, advance]
      refine ⟨hres, head_drop_of_prefix _ 7 _ h8 (by decide), ?_⟩
      rw [hres]
      exact resolve_local_path_calls sys _
  · intro h17
    have n8 : ¬ strncasecmp source.data "file:///".data 8 = 0 :=
      fun h => take8_of_file_localhost _ h17 ((strncasecmp_file_slash _).mp h)
    have c17 : strncasecmp source.data "file://localhost/".data 17 = 0 :=
      (strncasecmp_file_localhost _).mpr h17
    constructor
    · intro hlen
      have hz : char_at source.data 17 = '\x00' := by
        rw [← hlen]
        exact char_at_length _
      simp only [_xmlwriter_get_valid_file_path, hcreate, hs, n8, c17, hz, not_true_eq_false,
        if_false, if_true]
    · intro hlen
      have hz : ¬ char_at source.data 17 = '\x00' := char_at_ne_nul _ _ hlen hnul
      have hres : _xmlwriter_get_valid_file_path lib sys source
          = resolve_local_path sys ⟨source.data.drop 16⟩ := by
        simp [_xmlwriter_get_valid_file_path, hcreate, hs, n8, c17, hz, hwin, advance]
      refine ⟨hres, head_drop_of_prefix _ 16 _ h17 (by decide), ?_⟩
      rw [hres]
      exact resolve_local_path_calls sys _

/-- Instance of C9: "FILE:///tmp/out.xml" is resolved as "/tmp/out.xml", and
"file://localhost/" alone is rejected. -/
theorem file_uri_prefix_is_stripped_witness :
    _xmlwriter_get_valid_file_path sampleLib sampleSys "FILE:///tmp/out.xml"
      = (some "/tmp/out.xml",
          [SysCall.VCWD_REALPATH "/tmp/out.xml", SysCall.expand_filepath "/tmp/out.xml",
            SysCall.zend_dirname "/tmp/out.xml", SysCall.php_sys_stat "/tmp"]) ∧
    _xmlwriter_get_valid_file_path sampleLib sampleSys "file://localhost/" = (none, []) :=
  ⟨((file_uri_prefix_is_stripped sampleLib sampleSys "FILE:///tmp/out.xml" rfl (by decide) rfl
      (by decide)).1 (by decide)).2 (by decide) |>.1.trans (by decide),
    ((file_uri_prefix_is_stripped sampleLib sampleSys "file://localhost/" rfl (by decide) rfl
      (by decide)).2 (by decide)).1 (by decide)⟩

/-- C10: let `p` be the source of a plain path (no scheme), or a `file:///` or
`file://localhost/` source with the leading 7 or 16 characters removed (8 or 17
on a Windows build).  When the directory part of `p` is non-empty and its stat
fails, the resolver returns NULL; then, for a non-empty source, openUri (as a
method or a function) returns false with the warning "Unable to resolve file
path" and toUri raises the value error of argument 1, each leaving the object
and the library trace untouched: `xmlNewTextWriterFilename` is not called. -/
theorem missing_parent_directory_prevents_open (lib : Lib) (sys : Sys) (source p : String)
    (self : Option ze_xmlwriter_object) (st : State)
    (hp : (lib.xmlParseURIReference (lib.xmlURIEscapeStr source ":") = none ∧ p = source) ∨
      (lib.xmlParseURIReference (lib.xmlURIEscapeStr source ":") ≠ none ∧
        (source.data.take 8).map Char.toLower = "file:///".data ∧
        p = ⟨source.data.drop (if sys.PHP_WIN32 then 8 else 7)⟩) ∨
      (lib.xmlParseURIReference (lib.xmlURIEscapeStr source ":") ≠ none ∧
        (source.data.take 17).map Char.toLower = "file://localhost/".data ∧
        p = ⟨source.data.drop (if sys.PHP_WIN32 then 17 else 16)⟩))
    (hdir : 0 < (sys.zend_dirname p).length)
    (hstat : sys.php_sys_stat (sys.zend_dirname p) ≠ 0) :
    (_xmlwriter_get_valid_file_path lib sys source).1 = none ∧
    (source.length ≠ 0 →
      xmlwriter_open_uri lib sys self source st
        = (Outcome.ret (zval.bool false), self,
            { st with warnings := st.warnings ++ ["Unable to resolve file path"] }) ∧
      XMLWriter_toUri lib sys source st
        = (Outcome.argument_value_error 1 "must resolve to a valid file path", st)) := by
  have hloc := resolve_local_path_none sys p hdir hstat
  have hres : (_xmlwriter_get_valid_file_path lib sys source).1 = none := by
    unfold _xmlwriter_get_valid_file_path
    by_cases hcreate : lib.xmlCreateURI = true
    · rcases hp with ⟨hsch, rfl⟩ | ⟨hsch, h8, rfl⟩ | ⟨hsch, h17, rfl⟩
      · simp [hcreate, hsch, hloc]
      · have hs := Option.isSome_iff_ne_none.mpr hsch
        have c8 : strncasecmp source.data "file:///".data 8 = 0 :=
          (strncasecmp_file_slash _).mpr h8
        simp only [hcreate, hs, c8, not_true_eq_false, if_false, if_true, advance]
        by_cases hz : char_at source.data 8 = '\x00'
        · simp only [hz, if_true]
        · simp only [hz, if_false]
          exact hloc
      · have hs := Option.isSome_iff_ne_none.mpr hsch
        have n8 : ¬ strncasecmp source.data "file:///".data 8 = 0 :=
          fun h => take8_of_file_localhost _ h17 ((strncasecmp_file_slash _).mp h)
        have c17 : strncasecmp source.data "file://localhost/".data 17 = 0 :=
          (strncasecmp_file_localhost _).mpr h17
        simp only [hcreate, hs, n8, c17, not_true_eq_false, if_false, if_true, advance]
        by_cases hz : char_at source.data 17 = '\x00'
        · simp only [hz, if_true]
        · simp only [hz, if_false]
          exact hloc
    · simp [hcreate]
  refine ⟨hres, fun hne => ⟨?_, ?_⟩⟩
  · simp [xmlwriter_open_uri, hne, hres]
  · simp [XMLWriter_toUri, hne, hres]

/-- Instance of C10: the directory `/nodir` does not exist; neither the plain
path nor the file URI can be opened, and the library is not called. -/
theorem missing_parent_directory_prevents_open_witness :
    xmlwriter_open_uri sampleLib sampleSys (some ⟨some 4, none⟩) "/nodir/out.xml" ⟨[], []⟩
      = (Outcome.ret (zval.bool false), some ⟨some 4, none⟩,
          ⟨[], ["Unable to resolve file path"]⟩) ∧
    XMLWriter_toUri sampleLib sampleSys "file:///nodir/out.xml" ⟨[], []⟩
      = (Outcome.argument_value_error 1 "must resolve to a valid file path", ⟨[], []⟩) :=
  ⟨((missing_parent_directory_prevents_open sampleLib sampleSys "/nodir/out.xml"
      "/nodir/out.xml" (some ⟨some 4, none⟩) ⟨[], []⟩ (Or.inl ⟨by decide, rfl⟩)
      (by decide) (by decide)).2 (by decide)).1,
    ((missing_parent_directory_prevents_open sampleLib sampleSys "file:///nodir/out.xml"
      "/nodir/out.xml" none ⟨[], []⟩ (Or.inr (Or.inl ⟨by decide, by decide, by decide⟩))
      (by decide) (by decide)).2 (by decide)).2⟩

/-! ### The stream sink -/

/-- Releasing the reference taken by `Z_ADDREF` restores the reference count, and
the whole resource when another reference exists. -/
theorem zend_list_delete_Z_ADDREF (r : zend_resource) :
    (zend_list_delete (Z_ADDREF r)).refcount = r.refcount ∧
    (0 < r.refcount → zend_list_delete (Z_ADDREF r) = r) := by
  cases r with
  | mk n b =>
    refine ⟨by simp [zend_list_delete, Z_ADDREF], fun h => ?_⟩
    have hn : ¬ n + 1 ≤ 1 := by
      simp only [] at h
      omega
    simp [zend_list_delete, Z_ADDREF, hn]

/-- C11: the close callback of the stream sink deletes one reference, returns 0,
and leaves the stream open while another reference remains.  `toStream` on a
stream's resource: on every exit that yields no object (invalid resource, no
output buffer, no writer, failed object construction) the reference count is what
it was before the call, and the resource as a whole is unchanged when the caller
holds a reference; on success exactly one reference has been added, the stream
is untouched otherwise, the object holds a writer and no memory buffer, and
destroying the object restores the reference count (and the resource as a whole
when the caller holds a reference) and unsets the writer. -/
theorem stream_reference_count_balanced (lib : Lib) (sys : Sys) (w : StreamWorld) :
    (∀ r : zend_resource,
      (xml_writer_stream_close r).2 = 0 ∧
      (xml_writer_stream_close r).1.refcount = r.refcount - 1 ∧
      (1 < r.refcount → (xml_writer_stream_close r).1.is_open_stream = r.is_open_stream)) ∧
    ((∀ o, (XMLWriter_toStream lib sys w).1 ≠ Outcome.ret (zval.obj o)) →
      (XMLWriter_toStream lib sys w).2.resource.refcount = w.resource.refcount ∧
      (0 < w.resource.refcount → (XMLWriter_toStream lib sys w).2.resource = w.resource)) ∧
    (∀ o, (XMLWriter_toStream lib sys w).1 = Outcome.ret (zval.obj o) →
      (XMLWriter_toStream lib sys w).2.resource
        = { refcount := w.resource.refcount + 1,
            is_open_stream := w.resource.is_open_stream } ∧
      o.ptr ≠ none ∧ o.output = none ∧
      (xmlwriter_object_dtor_stream o (XMLWriter_toStream lib sys w).2).1
        = { ptr := none, output := none } ∧
      (xmlwriter_object_dtor_stream o (XMLWriter_toStream lib sys w).2).2.resource.refcount
        = w.resource.refcount ∧
      (0 < w.resource.refcount →
        (xmlwriter_object_dtor_stream o (XMLWriter_toStream lib sys w).2).2.resource
          = w.resource)) := by
  have hbal := zend_list_delete_Z_ADDREF w.resource
  refine ⟨fun r => ⟨rfl, rfl, fun h => ?_⟩, ?_, ?_⟩
  · have hr : ¬ r.refcount ≤ 1 := by omega
    simp [xml_writer_stream_close, zend_list_delete, hr]
  · intro hno
    unfold XMLWriter_toStream at hno ⊢
    by_cases hs : w.resource.is_open_stream = true
    · simp only [hs, not_true_eq_false, if_false] at hno ⊢
      cases h1 : lib.alloc w.st.trace ( xmlOutputBufferCreateIO IOSink.stream) with
      | none => simp
      | some output_buffer =>
        simp only [h1] at hno ⊢
        cases h2 : lib.alloc (w.st.trace ++ [ xmlOutputBufferCreateIO IOSink.stream])
            (xmlNewTextWriter output_buffer) with
        | none =>
          simp only [xmlOutputBufferClose_stream, xml_writer_stream_close]
          exact hbal
        | some writer =>
          simp only [h2, xml_writer_create_static_stream] at hno ⊢
          by_cases hk : sys.object_init_with_constructor = true
          · simp only [hk, if_true] at hno
            exact absurd rfl (hno _)
          · simp only [hk, if_false, xmlFreeTextWriter_stream, xml_writer_stream_close]
            exact hbal
    · simp [hs]
  · intro o ho
    unfold XMLWriter_toStream at ho ⊢
    by_cases hs : w.resource.is_open_stream = true
    · simp only [hs, not_true_eq_false, if_false] at ho ⊢
      cases h1 : lib.alloc w.st.trace ( xmlOutputBufferCreateIO IOSink.stream) with
      | none => simp [h1] at ho
      | some output_buffer =>
        simp only [h1] at ho ⊢
        cases h2 : lib.alloc (w.st.trace ++ [ xmlOutputBufferCreateIO IOSink.stream])
            (xmlNewTextWriter output_buffer) with
        | none => simp [h2] at ho
        | some writer =>
          simp only [h2, xml_writer_create_static_stream] at ho ⊢
          by_cases hk : sys.object_init_with_constructor = true
          · simp only [hk, if_true, Outcome.ret.injEq, zval.obj.injEq] at ho
            subst ho
            simp only [hk, if_true]
            refine ⟨?_, ?_, ?_, ?_, ?_, ?_⟩
            · simp [Z_ADDREF, hs]
            · simp
            · trivial
            · rfl
            · exact hbal.1
            · exact hbal.2
          · simp [hk] at ho
    · simp [hs] at ho

/-- Instance of C11: a stream with two references.  With a library that creates
no writer `toStream` throws and the resource is as before; with a library that
does, the reference count is 3 afterwards and 2 again once the object is
destroyed, the stream staying open. -/
theorem stream_reference_count_balanced_witness :
    XMLWriter_toStream noWriterLib sampleSys ⟨⟨[], []⟩, ⟨2, true⟩⟩
      = (Outcome.error "Could not construct libxml writer",
          ⟨⟨[ xmlOutputBufferCreateIO IOSink.stream, xmlNewTextWriter 0,
              xmlOutputBufferClose 0], []⟩, ⟨2, true⟩⟩) ∧
    (XMLWriter_toStream noWriterLib sampleSys ⟨⟨[], []⟩, ⟨2, true⟩⟩).2.resource = ⟨2, true⟩ ∧
    XMLWriter_toStream sampleLib sampleSys ⟨⟨[], []⟩, ⟨2, true⟩⟩
      = (Outcome.ret (zval.obj ⟨some 1, none⟩),
          ⟨⟨[ xmlOutputBufferCreateIO IOSink.stream, xmlNewTextWriter 0], []⟩, ⟨3, true⟩⟩) ∧
    (xmlwriter_object_dtor_stream ⟨some 1, none⟩
        (XMLWriter_toStream sampleLib sampleSys ⟨⟨[], []⟩, ⟨2, true⟩⟩).2).2.resource
      = ⟨2, true⟩ :=
  ⟨by decide,
    ((stream_reference_count_balanced noWriterLib sampleSys ⟨⟨[], []⟩, ⟨2, true⟩⟩).2.1
      (fun o h => Outcome.noConfusion h)).2 (by decide),
    by decide,
    ((stream_reference_count_balanced sampleLib sampleSys ⟨⟨[], []⟩, ⟨2, true⟩⟩).2.2
      ⟨some 1, none⟩ (by decide)).2.2.2.2.2 (by decide)⟩

/-! ### Destruction and opening -/

/-- C12: destroying the native objects twice gives the same object and the same
world as destroying them once.  Afterwards the writer pointer is unset, and so is
the memory-output pointer for every object that has a buffer only together with
a writer.  `xmlFreeTextWriter` is called once, on the pointer held, when a writer
is held, and not at all on an unset pointer; the destructor handler does just
this. -/
theorem destroy_libxml_objects_idempotent (intern : ze_xmlwriter_object) (st : State) :
    xmlwriter_destroy_libxml_objects (xmlwriter_destroy_libxml_objects intern st).1
        (xmlwriter_destroy_libxml_objects intern st).2
      = xmlwriter_destroy_libxml_objects intern st ∧
    (xmlwriter_destroy_libxml_objects intern st).1.ptr = none ∧
    ((intern.output ≠ none → intern.ptr ≠ none) →
      (xmlwriter_destroy_libxml_objects intern st).1 = { ptr := none, output := none }) ∧
    (∀ ptr, intern.ptr = some ptr →
      xmlwriter_destroy_libxml_objects intern st
        = ({ ptr := none, output := none },
            { st with trace := st.trace ++ [xmlFreeTextWriter ptr] })) ∧
    (intern.ptr = none → xmlwriter_destroy_libxml_objects intern st = (intern, st)) ∧
    xmlwriter_object_dtor intern st = xmlwriter_destroy_libxml_objects intern st := by
  cases intern with
  | mk p o =>
    cases p with
    | none =>
      refine ⟨rfl, rfl, fun h => ?_, fun ptr h => ?_, fun _ => rfl, rfl⟩
      · cases o with
        | none => rfl
        | some b => exact absurd rfl (h (by simp))
      · simp at h
    | some q =>
      refine ⟨rfl, rfl, fun _ => rfl, fun ptr h => ?_, fun h => ?_, rfl⟩
      · simp only [Option.some.injEq] at h
        subst h
        rfl
      · simp at h

/-- Instance of C12: a memory-backed writer is freed once; destroying again
changes nothing. -/
theorem destroy_libxml_objects_idempotent_witness :
    xmlwriter_destroy_libxml_objects ⟨some 3, some ⟨"<r/>"⟩⟩ ⟨[], []⟩
      = (⟨none, none⟩, ⟨[xmlFreeTextWriter 3], []⟩) ∧
    xmlwriter_destroy_libxml_objects ⟨none, none⟩ ⟨[xmlFreeTextWriter 3], []⟩
      = (⟨none, none⟩, ⟨[xmlFreeTextWriter 3], []⟩) :=
  ⟨(destroy_libxml_objects_idempotent ⟨some 3, some ⟨"<r/>"⟩⟩ ⟨[], []⟩).2.2.2.1 3 rfl,
    (destroy_libxml_objects_idempotent ⟨none, none⟩ ⟨[xmlFreeTextWriter 3], []⟩).2.2.2.2.1 rfl⟩

/-- C16: on an initialized writer without memory buffer, `outputMemory` with the
flag true, false or omitted returns the empty string and leaves the object and
the world, the library trace included, as they were: the library's flush is not
called.  `flush` on the same writer records exactly one call of the library's
flush. -/
theorem output_memory_without_buffer_skips_flush (lib : Lib) (self : ze_xmlwriter_object)
    (ptr : xmlTextWriterPtr) (empty : Option Bool) (st : State)
    (hptr : self.ptr = some ptr) (hout : self.output = none) :
    xmlwriter_output_memory lib self empty st = (Outcome.ret (zval.str ""), self, st) ∧
    (xmlwriter_flush lib self empty st).2.2.trace = st.trace ++ [xmlTextWriterFlush ptr] := by
  cases self with
  | mk p o =>
    simp only at hptr hout
    subst hptr hout
    simp [xmlwriter_output_memory, xmlwriter_flush, php_xmlwriter_flush, XMLWRITER_FROM_OBJECT,
      Lib.call]

/-- Instance of C16: a file writer; `outputMemory(false)` returns "" without a
library call, `flush(false)` calls the library. -/
theorem output_memory_without_buffer_skips_flush_witness :
    xmlwriter_output_memory sampleLib ⟨some 1, none⟩ (some false) ⟨[], []⟩
      = (Outcome.ret (zval.str ""), ⟨some 1, none⟩, ⟨[], []⟩) ∧
    (xmlwriter_flush sampleLib ⟨some 1, none⟩ (some false) ⟨[], []⟩).2.2.trace
      = [xmlTextWriterFlush 1] :=
  output_memory_without_buffer_skips_flush sampleLib ⟨some 1, none⟩ 1 (some false) ⟨[], []⟩
    rfl rfl

/-- C13: `openUri` and `openMemory` invoked as methods on an object.  Whenever the
call does not return true, the object is exactly what it was and the calls added
to the trace contain no `xmlFreeTextWriter`; this covers the empty path (argument
error, nothing recorded), the unresolvable path (false with a warning, nothing
recorded) and the library returning no writer (false).  When the call returns
true, the new writer had been created before the old one was destroyed, and the
object holds the new writer. -/
theorem open_on_object_is_atomic (lib : Lib) (sys : Sys) (obj : ze_xmlwriter_object)
    (source : String) (st : State) :
    ((xmlwriter_open_uri lib sys (some obj) source st).1 ≠ Outcome.ret (zval.bool true) →
      (xmlwriter_open_uri lib sys (some obj) source st).2.1 = some obj ∧
      ∃ extra, (xmlwriter_open_uri lib sys (some obj) source st).2.2.trace = st.trace ++ extra ∧
        ∀ p, xmlFreeTextWriter p ∉ extra) ∧
    ((xmlwriter_open_uri lib sys (some obj) source st).1 = Outcome.ret (zval.bool true) →
      ∃ valid_file ptr,
        (_xmlwriter_get_valid_file_path lib sys source).1 = some valid_file ∧
        lib.alloc st.trace (xmlNewTextWriterFilename valid_file 0) = some ptr ∧
        (xmlwriter_open_uri lib sys (some obj) source st).2.1
          = some { ptr := some ptr, output := none } ∧
        (xmlwriter_open_uri lib sys (some obj) source st).2.2
          = (xmlwriter_destroy_libxml_objects obj
              { st with trace := st.trace ++ [xmlNewTextWriterFilename valid_file 0] }).2) ∧
    (source.length = 0 →
      xmlwriter_open_uri lib sys (some obj) source st
        = (Outcome.argument_must_not_be_empty_error 1, some obj, st)) ∧
    (source.length ≠ 0 → (_xmlwriter_get_valid_file_path lib sys source).1 = none →
      xmlwriter_open_uri lib sys (some obj) source st
        = (Outcome.ret (zval.bool false), some obj,
            { st with warnings := st.warnings ++ ["Unable to resolve file path"] })) ∧
    (∀ valid_file, source.length ≠ 0 →
      (_xmlwriter_get_valid_file_path lib sys source).1 = some valid_file →
      lib.alloc st.trace (xmlNewTextWriterFilename valid_file 0) = none →
      xmlwriter_open_uri lib sys (some obj) source st
        = (Outcome.ret (zval.bool false), some obj,
            { st with trace := st.trace ++ [xmlNewTextWriterFilename valid_file 0] })) ∧
    ((xmlwriter_open_memory lib (some obj) st).1 ≠ Outcome.ret (zval.bool true) →
      (xmlwriter_open_memory lib (some obj) st).2.1 = some obj ∧
      ∃ extra, (xmlwriter_open_memory lib (some obj) st).2.2.trace = st.trace ++ extra ∧
        ∀ p, xmlFreeTextWriter p ∉ extra) ∧
    ((xmlwriter_open_memory lib (some obj) st).1 = Outcome.ret (zval.bool true) →
      ∃ ptr output st₁,
        xml_writer_create_in_memory lib st = (some (ptr, output), st₁) ∧
        (xmlwriter_open_memory lib (some obj) st).2.1
          = some { ptr := some ptr, output := some output } ∧
        (xmlwriter_open_memory lib (some obj) st).2.2
          = (xmlwriter_destroy_libxml_objects obj st₁).2) := by
  refine ⟨?_, ?_, ?_, ?_, ?_, ?_, ?_⟩
  · intro h
    unfold xmlwriter_open_uri at h ⊢
    by_cases hl : source.length = 0
    · simp only [hl, if_true]
      exact ⟨trivial, [], by simp, by simp⟩
    · simp only [hl, if_false] at h ⊢
      cases hv : (_xmlwriter_get_valid_file_path lib sys source).1 with
      | none =>
        simp only [hv]
        exact ⟨trivial, [], by simp, by simp⟩
      | some valid_file =>
        simp only [hv] at h ⊢
        cases ha : lib.alloc st.trace (xmlNewTextWriterFilename valid_file 0) with
        | none =>
          simp only [ha]
          exact ⟨trivial, [xmlNewTextWriterFilename valid_file 0], rfl, by simp⟩
        | some ptr =>
          simp only [ha] at h
          exact absurd rfl h
  · intro h
    unfold xmlwriter_open_uri at h ⊢
    by_cases hl : source.length = 0
    · simp [hl] at h
    · simp only [hl, if_false] at h ⊢
      cases hv : (_xmlwriter_get_valid_file_path lib sys source).1 with
      | none => simp [hv] at h
      | some valid_file =>
        simp only [hv] at h ⊢
        cases ha : lib.alloc st.trace (xmlNewTextWriterFilename valid_file 0) with
        | none => simp [ha] at h
        | some ptr => exact ⟨valid_file, ptr, rfl, ha, rfl, rfl⟩
  · intro hl
    simp [xmlwriter_open_uri, hl]
  · intro hl hv
    simp [xmlwriter_open_uri, hl, hv]
  · intro valid_file hl hv ha
    simp [xmlwriter_open_uri, hl, hv, ha]
  · intro h
    unfold xmlwriter_open_memory xml_writer_create_in_memory at h ⊢
    cases h1 : lib.alloc st.trace ( xmlOutputBufferCreateIO IOSink.memory) with
    | none =>
      simp only [h1]
      exact ⟨trivial, [ xmlOutputBufferCreateIO IOSink.memory], rfl, by simp⟩
    | some output_buffer =>
      simp only [h1] at h ⊢
      cases h2 : lib.alloc (st.trace ++ [ xmlOutputBufferCreateIO IOSink.memory])
          (xmlNewTextWriter output_buffer) with
      | none =>
        simp only [h2]
        exact ⟨trivial, [ xmlOutputBufferCreateIO IOSink.memory, xmlNewTextWriter output_buffer,
          xmlOutputBufferClose output_buffer], by simp, by simp⟩
      | some writer =>
        simp only [h2] at h
        exact absurd rfl h
  · intro h
    unfold xmlwriter_open_memory at h ⊢
    cases hc : xml_writer_create_in_memory lib st with
    | mk r st₁ =>
      cases r with
      | none => simp [hc] at h
      | some pr =>
        cases pr with
        | mk ptr output => exact ⟨ptr, output, st₁, rfl, rfl, rfl⟩

/-- Instance of C13: a memory-backed writer holding "<r/>".  `openUri` on a path
whose directory is missing and `openMemory` with a library that creates no writer
both return false and leave the object untouched, the old writer not being freed. -/
theorem open_on_object_is_atomic_witness :
    xmlwriter_open_uri sampleLib sampleSys (some ⟨some 3, some ⟨"<r/>"⟩⟩) "/nodir/out.xml"
        ⟨[], []⟩
      = (Outcome.ret (zval.bool false), some ⟨some 3, some ⟨"<r/>"⟩⟩,
          ⟨[], ["Unable to resolve file path"]⟩) ∧
    (xmlwriter_open_memory noWriterLib (some ⟨some 3, some ⟨"<r/>"⟩⟩) ⟨[], []⟩).2.1
      = some ⟨some 3, some ⟨"<r/>"⟩⟩ :=
  ⟨(open_on_object_is_atomic sampleLib sampleSys ⟨some 3, some ⟨"<r/>"⟩⟩ "/nodir/out.xml"
      ⟨[], []⟩).2.2.2.1 (by decide) (by decide),
    ((open_on_object_is_atomic noWriterLib sampleSys ⟨some 3, some ⟨"<r/>"⟩⟩ "" ⟨[], []⟩).2.2.2.2.2.1
      (by decide)).1⟩

/-! ### Writing an element without content -/

theorem bne_neg_one (x : Int) : (x != -1) = decide (x ≠ -1) := by
  by_cases hx : x = -1 <;> simp [hx]

/-- C14: `writeElement(name)` with NULL content gives the same outcome, object and
library calls as `startElement(name)` followed, only if that returned true, by
`endElement()`, and `writeElementNs` the same against `startElementNs` followed by
`endElement()` (for every object and name).  On an initialized writer with a
valid name: when the start call returns -1 the result is false and only the
start call is recorded; otherwise start and end are recorded in this order and
the result is true exactly when the end call does not return -1.  Content that
is a string, the empty string included, is forwarded in one call to the
library's write-element function. -/
theorem write_element_without_content_starts_then_ends (lib : Lib)
    (self : ze_xmlwriter_object) (ptr : xmlTextWriterPtr) (pfx uri : Option String)
    (name : String) (st : State) :
    xmlwriter_write_element lib self name none st
      = start_element_then_end_element lib self name st ∧
    xmlwriter_write_element_ns lib self pfx name uri none st
      = start_element_ns_then_end_element lib self pfx name uri st ∧
    (self.ptr = some ptr → lib.xmlValidateName name = 0 →
      (lib.ret st.trace (xmlTextWriterStartElement ptr name) = -1 →
        (xmlwriter_write_element lib self name none st).1 = Outcome.ret (zval.bool false) ∧
        (xmlwriter_write_element lib self name none st).2.2.trace
          = st.trace ++ [xmlTextWriterStartElement ptr name]) ∧
      (lib.ret st.trace (xmlTextWriterStartElement ptr name) ≠ -1 →
        (xmlwriter_write_element lib self name none st).1
          = Outcome.ret (zval.bool (decide
              (lib.ret (st.trace ++ [xmlTextWriterStartElement ptr name])
                (xmlTextWriterEndElement ptr) ≠ -1))) ∧
        (xmlwriter_write_element lib self name none st).2.2.trace
          = st.trace ++ [xmlTextWriterStartElement ptr name, xmlTextWriterEndElement ptr]) ∧
      (lib.ret st.trace (xmlTextWriterStartElementNS ptr pfx name uri) = -1 →
        (xmlwriter_write_element_ns lib self pfx name uri none st).1
          = Outcome.ret (zval.bool false) ∧
        (xmlwriter_write_element_ns lib self pfx name uri none st).2.2.trace
          = st.trace ++ [xmlTextWriterStartElementNS ptr pfx name uri]) ∧
      (lib.ret st.trace (xmlTextWriterStartElementNS ptr pfx name uri) ≠ -1 →
        (xmlwriter_write_element_ns lib self pfx name uri none st).1
          = Outcome.ret (zval.bool (decide
              (lib.ret (st.trace ++ [xmlTextWriterStartElementNS ptr pfx name uri])
                (xmlTextWriterEndElement ptr) ≠ -1))) ∧
        (xmlwriter_write_element_ns lib self pfx name uri none st).2.2.trace
          = st.trace ++ [xmlTextWriterStartElementNS ptr pfx name uri,
              xmlTextWriterEndElement ptr]) ∧
      (∀ content : String,
        (xmlwriter_write_element lib self name (some content) st).1
          = Outcome.ret (zval.bool (decide
              (lib.ret st.trace (xmlTextWriterWriteElement ptr name content) ≠ -1))) ∧
        (xmlwriter_write_element lib self name (some content) st).2.2.trace
          = st.trace ++ [xmlTextWriterWriteElement ptr name content] ∧
        (xmlwriter_write_element_ns lib self pfx name uri (some content) st).1
          = Outcome.ret (zval.bool (decide
              (lib.ret st.trace (xmlTextWriterWriteElementNS ptr pfx name uri content) ≠ -1))) ∧
        (xmlwriter_write_element_ns lib self pfx name uri (some content) st).2.2.trace
          = st.trace ++ [xmlTextWriterWriteElementNS ptr pfx name uri content])) := by
  refine ⟨?_, ?_, ?_⟩
  · cases self with
    | mk p o =>
      cases p with
      | none =>
        simp [xmlwriter_write_element, start_element_then_end_element, xmlwriter_start_element,
          php_xmlwriter_string_arg, XMLWRITER_FROM_OBJECT]
      | some q =>
        by_cases hv : lib.xmlValidateName name = 0
        · by_cases hr : lib.ret st.trace (xmlTextWriterStartElement q name) = -1
          · simp [xmlwriter_write_element, start_element_then_end_element,
              xmlwriter_start_element, php_xmlwriter_string_arg, XMLWRITER_FROM_OBJECT,
              XMLW_NAME_CHK, RETURN_BOOL_ne_m1, Lib.call, hv, hr]
          · simp [xmlwriter_write_element, start_element_then_end_element,
              xmlwriter_start_element, xmlwriter_end_element, php_xmlwriter_end,
              php_xmlwriter_string_arg, XMLWRITER_FROM_OBJECT, XMLW_NAME_CHK, RETURN_BOOL_ne_m1,
              Lib.call, hv, hr]
        · simp [xmlwriter_write_element, start_element_then_end_element,
            xmlwriter_start_element, php_xmlwriter_string_arg, XMLWRITER_FROM_OBJECT,
            XMLW_NAME_CHK, hv]
  · cases self with
    | mk p o =>
      cases p with
      | none =>
        simp [xmlwriter_write_element_ns, start_element_ns_then_end_element,
          xmlwriter_start_element_ns, XMLWRITER_FROM_OBJECT]
      | some q =>
        by_cases hv : lib.xmlValidateName name = 0
        · by_cases hr : lib.ret st.trace (xmlTextWriterStartElementNS q pfx name uri) = -1
          · simp [xmlwriter_write_element_ns, start_element_ns_then_end_element,
              xmlwriter_start_element_ns, XMLWRITER_FROM_OBJECT,
              XMLW_NAME_CHK, RETURN_BOOL_ne_m1, Lib.call, hv, hr]
          · simp [xmlwriter_write_element_ns, start_element_ns_then_end_element,
              xmlwriter_start_element_ns, xmlwriter_end_element, php_xmlwriter_end,
              XMLWRITER_FROM_OBJECT, XMLW_NAME_CHK, RETURN_BOOL_ne_m1,
              Lib.call, hv, hr]
        · simp [xmlwriter_write_element_ns, start_element_ns_then_end_element,
            xmlwriter_start_element_ns, XMLWRITER_FROM_OBJECT,
            XMLW_NAME_CHK, hv]
  · intro hptr hv
    cases self with
    | mk p o =>
      simp only at hptr
      subst hptr
      refine ⟨fun hr => ?_, fun hr => ?_, fun hr => ?_, fun hr => ?_, fun content => ?_⟩
      · simp [xmlwriter_write_element, XMLWRITER_FROM_OBJECT, XMLW_NAME_CHK, Lib.call, hv, hr]
      · simp [xmlwriter_write_element, XMLWRITER_FROM_OBJECT, XMLW_NAME_CHK, RETURN_BOOL_ne_m1,
          Lib.call, hv, hr, bne_neg_one]
      · simp [xmlwriter_write_element_ns, XMLWRITER_FROM_OBJECT, XMLW_NAME_CHK, Lib.call, hv, hr]
      · simp [xmlwriter_write_element_ns, XMLWRITER_FROM_OBJECT, XMLW_NAME_CHK,
          RETURN_BOOL_ne_m1, Lib.call, hv, hr, bne_neg_one]
      · simp [xmlwriter_write_element, xmlwriter_write_element_ns, XMLWRITER_FROM_OBJECT,
          XMLW_NAME_CHK, RETURN_BOOL_ne_m1, Lib.call, hv, bne_neg_one]

/-- Instance of C14: `writeElement("root")` records start and end and returns
true; `writeElement("root", "")` makes the single write-element call. -/
theorem write_element_without_content_starts_then_ends_witness :
    xmlwriter_write_element sampleLib ⟨some 1, none⟩ "root" none ⟨[], []⟩
      = (Outcome.ret (zval.bool true), ⟨some 1, none⟩,
          ⟨[xmlTextWriterStartElement 1 "root", xmlTextWriterEndElement 1], []⟩) ∧
    (xmlwriter_write_element sampleLib ⟨some 1, none⟩ "root" none ⟨[], []⟩).2.2.trace
      = [xmlTextWriterStartElement 1 "root", xmlTextWriterEndElement 1] ∧
    (xmlwriter_write_element sampleLib ⟨some 1, none⟩ "root" (some "") ⟨[], []⟩).2.2.trace
      = [xmlTextWriterWriteElement 1 "root" ""] :=
  ⟨(write_element_without_content_starts_then_ends sampleLib ⟨some 1, none⟩ 1 none none "root"
      ⟨[], []⟩).1.trans (by decide),
    (((write_element_without_content_starts_then_ends sampleLib ⟨some 1, none⟩ 1 none none "root"
      ⟨[], []⟩).2.2 rfl (by decide)).2.1 (by decide)).2,
    (((write_element_without_content_starts_then_ends sampleLib ⟨some 1, none⟩ 1 none none "root"
      ⟨[], []⟩).2.2 rfl (by decide)).2.2.2.2 "").2.1⟩

/-! ### The object-state invariant -/

/-- A writer operation keeps the writer pointer, and keeps the output pointer
set or unset as it was. -/
theorem op_run_keeps_pointers (lib : Lib) (op : Op) (o : ze_xmlwriter_object) (st : State) :
    (op.run lib o st).2.1.ptr = o.ptr ∧
    ((op.run lib o st).2.1.output = none ↔ o.output = none) := by
  cases o with
  | mk p out =>
    cases p <;> cases out <;> cases op <;>
      simp [Op.run, xmlwriter_set_indent, xmlwriter_set_indent_string,
        xmlwriter_start_attribute,
        xmlwriter_end_attribute, xmlwriter_start_attribute_ns, xmlwriter_write_attribute,
        xmlwriter_write_attribute_ns, xmlwriter_start_element, xmlwriter_start_element_ns,
        xmlwriter_end_element, xmlwriter_full_end_element, xmlwriter_write_element,
        xmlwriter_write_element_ns, xmlwriter_start_pi, xmlwriter_end_pi, xmlwriter_write_pi,
        xmlwriter_start_cdata, xmlwriter_end_cdata, xmlwriter_write_cdata, xmlwriter_write_raw,
        xmlwriter_text, xmlwriter_start_comment, xmlwriter_end_comment, xmlwriter_write_comment,
        xmlwriter_start_document, xmlwriter_end_document, xmlwriter_start_dtd, xmlwriter_end_dtd,
        xmlwriter_write_dtd, xmlwriter_start_dtd_element, xmlwriter_end_dtd_element,
        xmlwriter_write_dtd_element, xmlwriter_start_dtd_attlist, xmlwriter_end_dtd_attlist,
        xmlwriter_write_dtd_attlist, xmlwriter_start_dtd_entity, xmlwriter_end_dtd_entity,
        xmlwriter_write_dtd_entity, xmlwriter_flush, xmlwriter_output_memory,
        php_xmlwriter_flush, php_xmlwriter_string_arg, php_xmlwriter_end, XMLWRITER_FROM_OBJECT,
        XMLW_NAME_CHK, RETURN_BOOL_ne_m1, Lib.call] <;>
      ((repeat' split) <;> simp_all)

/-- An object returned by `openUri` called as a function holds a writer and no buffer. -/
theorem open_uri_function_object (lib : Lib) (sys : Sys) (source : String) (st : State)
    (o : ze_xmlwriter_object)
    (h : (xmlwriter_open_uri lib sys none source st).1 = Outcome.ret (zval.obj o)) :
    o.ptr ≠ none ∧ o.output = none := by
  unfold xmlwriter_open_uri at h
  by_cases hl : source.length = 0
  · simp [hl] at h
  · simp only [hl, if_false] at h
    cases hv : (_xmlwriter_get_valid_file_path lib sys source).1 with
    | none => simp [hv] at h
    | some valid_file =>
      simp only [hv] at h
      cases ha : lib.alloc st.trace (xmlNewTextWriterFilename valid_file 0) with
      | none => simp [ha] at h
      | some ptr =>
        simp only [ha, Outcome.ret.injEq, zval.obj.injEq] at h
        subst h
        simp

/-- What `openUri` called as a method leaves in the object: the object as it
was unless true is returned, and then a writer without buffer. -/
theorem open_uri_method_object (lib : Lib) (sys : Sys) (obj o' : ze_xmlwriter_object)
    (source : String) (st : State)
    (h : (xmlwriter_open_uri lib sys (some obj) source st).2.1 = some o') :
    ((xmlwriter_open_uri lib sys (some obj) source st).1 ≠ Outcome.ret (zval.bool true) →
      o' = obj) ∧
    ((xmlwriter_open_uri lib sys (some obj) source st).1 = Outcome.ret (zval.bool true) →
      o'.ptr ≠ none ∧ o'.output = none) := by
  unfold xmlwriter_open_uri at h ⊢
  by_cases hl : source.length = 0
  · simp only [hl, if_true, Option.some.injEq] at h ⊢
    subst h
    simp
  · simp only [hl, if_false] at h ⊢
    cases hv : (_xmlwriter_get_valid_file_path lib sys source).1 with
    | none =>
      simp only [hv, Option.some.injEq] at h ⊢
      subst h
      simp
    | some valid_file =>
      simp only [hv] at h ⊢
      cases ha : lib.alloc st.trace (xmlNewTextWriterFilename valid_file 0) with
      | none =>
        simp only [ha, Option.some.injEq] at h ⊢
        subst h
        simp
      | some ptr =>
        simp only [ha, Option.some.injEq] at h ⊢
        subst h
        simp

/-- A writer created in memory comes with its buffer. -/
theorem open_memory_function_object (lib : Lib) (st : State) (o : ze_xmlwriter_object)
    (h : (xmlwriter_open_memory lib none st).1 = Outcome.ret (zval.obj o)) :
    o.ptr ≠ none ∧ o.output ≠ none := by
  unfold xmlwriter_open_memory at h
  cases hc : xml_writer_create_in_memory lib st with
  | mk r st₁ =>
    cases r with
    | none => simp [hc] at h
    | some pr =>
      simp only [hc, Outcome.ret.injEq, zval.obj.injEq] at h
      subst h
      simp

/-- What `openMemory` called as a method leaves in the object. -/
theorem open_memory_method_object (lib : Lib) (obj o' : ze_xmlwriter_object) (st : State)
    (h : (xmlwriter_open_memory lib (some obj) st).2.1 = some o') :
    ((xmlwriter_open_memory lib (some obj) st).1 ≠ Outcome.ret (zval.bool true) → o' = obj) ∧
    ((xmlwriter_open_memory lib (some obj) st).1 = Outcome.ret (zval.bool true) →
      o'.ptr ≠ none ∧ o'.output ≠ none) := by
  unfold xmlwriter_open_memory at h ⊢
  cases hc : xml_writer_create_in_memory lib st with
  | mk r st₁ =>
    cases r with
    | none =>
      simp only [hc, Option.some.injEq] at h ⊢
      subst h
      simp
    | some pr =>
      simp only [hc, Option.some.injEq] at h ⊢
      subst h
      simp

/-- An object built by `xml_writer_create_static` holds the writer and the
output pointer it was given. -/
theorem create_static_object (sys : Sys) (writer : xmlTextWriterPtr)
    (output : Option smart_str) (st : State) (o : ze_xmlwriter_object)
    (h : (xml_writer_create_static sys writer output st).1 = Outcome.ret (zval.obj o)) :
    o = { ptr := some writer, output := output } := by
  unfold xml_writer_create_static at h
  by_cases hk : sys.object_init_with_constructor = true
  · simp only [hk, if_true, Outcome.ret.injEq, zval.obj.injEq] at h
    exact h.symm
  · simp [hk] at h

theorem toUri_object (lib : Lib) (sys : Sys) (source : String) (st : State)
    (o : ze_xmlwriter_object)
    (h : (XMLWriter_toUri lib sys source st).1 = Outcome.ret (zval.obj o)) :
    o.ptr ≠ none ∧ o.output = none := by
  unfold XMLWriter_toUri at h
  by_cases hl : source.length = 0
  · simp [hl] at h
  · simp only [hl, if_false] at h
    cases hv : (_xmlwriter_get_valid_file_path lib sys source).1 with
    | none => simp [hv] at h
    | some valid_file =>
      simp only [hv] at h
      cases ha : lib.alloc st.trace (xmlNewTextWriterFilename valid_file 0) with
      | none => simp [ha] at h
      | some writer =>
        simp only [ha] at h
        rw [create_static_object sys writer none _ o h]
        simp

theorem toMemory_object (lib : Lib) (sys : Sys) (st : State) (o : ze_xmlwriter_object)
    (h : (XMLWriter_toMemory lib sys st).1 = Outcome.ret (zval.obj o)) :
    o.ptr ≠ none ∧ o.output ≠ none := by
  unfold XMLWriter_toMemory at h
  cases hc : xml_writer_create_in_memory lib st with
  | mk r st₁ =>
    cases r with
    | none => simp [hc] at h
    | some pr =>
      simp only [hc] at h
      rw [create_static_object sys pr.1 (some pr.2) _ o h]
      simp

theorem toStream_object (lib : Lib) (sys : Sys) (w : StreamWorld) (o : ze_xmlwriter_object)
    (h : (XMLWriter_toStream lib sys w).1 = Outcome.ret (zval.obj o)) :
    o.ptr ≠ none ∧ o.output = none := by
  unfold XMLWriter_toStream at h
  by_cases hs : w.resource.is_open_stream = true
  · simp only [hs, not_true_eq_false, if_false] at h
    cases h1 : lib.alloc w.st.trace ( xmlOutputBufferCreateIO IOSink.stream) with
    | none => simp [h1] at h
    | some output_buffer =>
      simp only [h1] at h
      cases h2 : lib.alloc (w.st.trace ++ [ xmlOutputBufferCreateIO IOSink.stream])
          (xmlNewTextWriter output_buffer) with
      | none => simp [h2] at h
      | some writer =>
        simp only [h2, xml_writer_create_static_stream] at h
        by_cases hk : sys.object_init_with_constructor = true
        · simp only [hk, if_true, Outcome.ret.injEq, zval.obj.injEq] at h
          subst h
          simp
        · simp [hk] at h
  · simp [hs] at h

/-- Every reachable object satisfies the invariant of its destination tag. -/
theorem reachable_sink_invariant (lib : Lib) (sys : Sys) (k : Option SinkKind)
    (o : ze_xmlwriter_object) (h : Reachable lib sys k o) : sink_invariant k o := by
  induction h with
  | object_new => exact ⟨rfl, rfl⟩
  | open_uri_function source st o ho => exact open_uri_function_object lib sys source st o ho
  | open_memory_function st o ho => exact open_memory_function_object lib st o ho
  | toUri source st o ho => exact toUri_object lib sys source st o ho
  | toMemory st o ho => exact toMemory_object lib sys st o ho
  | toStream w o ho => exact toStream_object lib sys w o ho
  | open_uri_method_ok k o o' source st _ hok hobj _ =>
    exact (open_uri_method_object lib sys o o' source st hobj).2 hok
  | open_uri_method_failed k o o' source st _ hno hobj ih =>
    rw [(open_uri_method_object lib sys o o' source st hobj).1 hno]
    exact ih
  | open_memory_method_ok k o o' st _ hok hobj _ =>
    exact (open_memory_method_object lib o o' st hobj).2 hok
  | open_memory_method_failed k o o' st _ hno hobj ih =>
    rw [(open_memory_method_object lib o o' st hobj).1 hno]
    exact ih
  | operation k o op st _ ih =>
    have hk := op_run_keeps_pointers lib op o st
    cases k with
    | none =>
      exact ⟨hk.1.trans ih.1, hk.2.mpr ih.2⟩
    | some kind =>
      cases kind with
      | memory =>
        refine ⟨?_, fun hn => ih.2 (hk.2.mp hn)⟩
        rw [hk.1]
        exact ih.1
      | file =>
        refine ⟨?_, hk.2.mpr ih.2⟩
        rw [hk.1]
        exact ih.1
      | stream =>
        refine ⟨?_, hk.2.mpr ih.2⟩
        rw [hk.1]
        exact ih.1
  | destruction k o st _ ih =>
    cases o with
    | mk p out =>
      cases p with
      | some q => exact ⟨rfl, rfl⟩
      | none =>
        cases k with
        | none => exact ih
        | some kind => cases kind <;> exact absurd rfl ih.1

/-- C15: in every object state reachable from a new object or from the creating
functions and static constructors (openUri, openMemory, toUri, toMemory,
toStream) through the opening methods, the writer operations, flush,
outputMemory and destruction, the memory-output pointer is set only if the
writer pointer is set; an object holding a file or stream writer has the writer
pointer set and the memory-output pointer unset, one holding a memory writer has
both set, one holding no writer has both unset; and destruction leaves both
unset. -/
theorem reachable_object_state_invariant (lib : Lib) (sys : Sys) (k : Option SinkKind)
    (o : ze_xmlwriter_object) (h : Reachable lib sys k o) :
    (o.output ≠ none → o.ptr ≠ none) ∧
    ((k = some SinkKind.file ∨ k = some SinkKind.stream) → o.ptr ≠ none ∧ o.output = none) ∧
    (k = some SinkKind.memory → o.ptr ≠ none ∧ o.output ≠ none) ∧
    (k = none → o.ptr = none ∧ o.output = none) ∧
    (∀ st, (xmlwriter_object_dtor o st).1 = { ptr := none, output := none }) := by
  have hinv := reachable_sink_invariant lib sys k o h
  have hdtor : ∀ st, sink_invariant none (xmlwriter_object_dtor o st).1 :=
    fun st => reachable_sink_invariant lib sys none _ (Reachable.destruction k o st h)
  refine ⟨?_, ?_, ?_, ?_, ?_⟩
  · intro hout
    cases k with
    | none => exact absurd hinv.2 hout
    | some kind => cases kind <;> exact hinv.1
  · rintro (hk | hk) <;> subst hk <;> exact hinv
  · intro hk
    subst hk
    exact hinv
  · intro hk
    subst hk
    exact hinv
  · intro st
    have hd := hdtor st
    cases hx : (xmlwriter_object_dtor o st).1 with
    | mk p out =>
      rw [hx] at hd
      simp only [sink_invariant] at hd
      rw [hd.1, hd.2]

/-- Instance of C15: a memory writer opened by the function, then written to and
flushed, still holds writer and buffer; a stream writer holds no buffer; after
destruction both pointers are unset. -/
theorem reachable_object_state_invariant_witness :
    Reachable sampleLib sampleSys (some SinkKind.memory) ⟨some 1, some ⟨""⟩⟩ ∧
    (((⟨some 1, some ⟨""⟩⟩ : ze_xmlwriter_object).ptr ≠ none ∧
      (⟨some 1, some ⟨""⟩⟩ : ze_xmlwriter_object).output ≠ none)) ∧
    (xmlwriter_object_dtor ⟨some 1, some ⟨""⟩⟩ ⟨[], []⟩).1 = ⟨none, none⟩ ∧
    Reachable sampleLib sampleSys (some SinkKind.stream) ⟨some 1, none⟩ ∧
    (⟨some 1, none⟩ : ze_xmlwriter_object).output = none :=
  have hm : Reachable sampleLib sampleSys (some SinkKind.memory) ⟨some 1, some ⟨""⟩⟩ :=
    Reachable.operation (some SinkKind.memory) ⟨some 1, some ⟨""⟩⟩ (Op.flush none) ⟨[], []⟩
      (Reachable.operation (some SinkKind.memory) ⟨some 1, some ⟨""⟩⟩ (Op.startElement "r")
        ⟨[], []⟩
        (Reachable.open_memory_function ⟨[], []⟩ ⟨some 1, some ⟨""⟩⟩ (by decide)))
  have hs : Reachable sampleLib sampleSys (some SinkKind.stream) ⟨some 1, none⟩ :=
    Reachable.toStream ⟨⟨[], []⟩, ⟨1, true⟩⟩ ⟨some 1, none⟩ (by decide)
  ⟨hm,
    (reachable_object_state_invariant sampleLib sampleSys (some SinkKind.memory)
      ⟨some 1, some ⟨""⟩⟩ hm).2.2.1 rfl,
    (reachable_object_state_invariant sampleLib sampleSys (some SinkKind.memory)
      ⟨some 1, some ⟨""⟩⟩ hm).2.2.2.2 ⟨[], []⟩,
    hs,
    ((reachable_object_state_invariant sampleLib sampleSys (some SinkKind.stream)
      ⟨some 1, none⟩ hs).2.1 (Or.inr rfl)).2⟩

end XmlWriter
